import Mathlib

set_option maxRecDepth 8192

/-! Verification of the UniversalHash v4 core (crates/core/src/uhash.rs,
crates/core/src/primitives.rs, crates/core/src/params.rs).

The embedding represents machine integers as `Nat` with explicit reduction
modulo `2 ^ w` wherever the source wraps, and byte strings as `List Nat`
(each element a byte value).  Fixed-size byte arrays (the 16- and 32-byte
AES states, the 32-byte chain states, 64-byte scratchpad blocks and the
512 KiB scratchpads) are packed little-endian into a single `Nat`: byte
`j` of the array is `n / 256 ^ j % 256`.  The external `blake3` and `sha2`
crate functions used by the source are embedded from their published
algorithms (full BLAKE3 hash, SHA-256 compression and digest). -/

/-- Byte `j` of a little-endian packed byte array. -/
def getByte (n j : Nat) : Nat := n / 256 ^ j % 256

/-- Little-endian packing of a byte list into a `Nat`. -/
def packLE : List Nat → Nat
  | [] => 0
  | b :: r => b + 256 * packLE r

/-- Concatenate packed byte arrays: `lo` occupies the low `w` bits. -/
def cat (lo : Nat) (w : Nat) (hi : Nat) : Nat := lo + hi * 2 ^ w

/-- The eight little-endian bytes of a `u64` (`u64::to_le_bytes`). -/
def le64Bytes (n : Nat) : List Nat :=
  [n % 256, n / 256 % 256, n / 65536 % 256, n / 16777216 % 256,
   n / 4294967296 % 256, n / 1099511627776 % 256,
   n / 281474976710656 % 256, n / 72057594037927936 % 256]

/-- Little-endian 32-bit word `i` of a packed byte array. -/
def w32 (n i : Nat) : Nat := n / 2 ^ (32 * i) % 4294967296

/-- Big-endian `u32` read at byte offset `j` (`u32::from_be_bytes`). -/
def be32 (n j : Nat) : Nat :=
  getByte n j * 16777216 + getByte n (j + 1) * 65536 +
    getByte n (j + 2) * 256 + getByte n (j + 3)

/-- Big-endian `u32::to_be_bytes`, packed little-endian byte-wise. -/
def be32pack (v : Nat) : Nat :=
  v / 16777216 % 256 + v / 65536 % 256 * 256 + v / 256 % 256 * 65536 +
    v % 256 * 16777216

/-- Rotation `u32::rotate_right` for `x < 2 ^ 32`. -/
def rotr32 (x n : Nat) : Nat := x / 2 ^ n + x % 2 ^ n * 2 ^ (32 - n)

/-- SHA-256 small sigma 0: `rotr 7 ^ rotr 18 ^ shr 3`. -/
def ssig0 (x : Nat) : Nat := rotr32 x 7 ^^^ rotr32 x 18 ^^^ x / 8

/-- SHA-256 small sigma 1: `rotr 17 ^ rotr 19 ^ shr 10`. -/
def ssig1 (x : Nat) : Nat := rotr32 x 17 ^^^ rotr32 x 19 ^^^ x / 1024

/-- SHA-256 big sigma 0: `rotr 2 ^ rotr 13 ^ rotr 22`. -/
def bsig0 (x : Nat) : Nat := rotr32 x 2 ^^^ rotr32 x 13 ^^^ rotr32 x 22

/-- SHA-256 big sigma 1: `rotr 6 ^ rotr 11 ^ rotr 25`. -/
def bsig1 (x : Nat) : Nat := rotr32 x 6 ^^^ rotr32 x 11 ^^^ rotr32 x 25

/-- SHA-256 choice function `(e & f) ^ (!e & g)` on `u32`. -/
def chF (e f g : Nat) : Nat := (e &&& f) ^^^ ((e ^^^ 4294967295) &&& g)

/-- SHA-256 majority function. -/
def majF (a b c : Nat) : Nat := (a &&& b) ^^^ (a &&& c) ^^^ (b &&& c)

/-- The BLAKE3 G mixing function on four `u32` state words (primitives.rs `g`). -/
def b3g (a b c d mx my : Nat) : Nat × Nat × Nat × Nat :=
  let a := (a + b + mx) % 4294967296
  let d := rotr32 (d ^^^ a) 16
  let c := (c + d) % 4294967296
  let b := rotr32 (b ^^^ c) 12
  let a := (a + b + my) % 4294967296
  let d := rotr32 (d ^^^ a) 8
  let c := (c + d) % 4294967296
  let b := rotr32 (b ^^^ c) 7
  (a, b, c, d)
def SBOXN : Nat := 2869618975290639062594974519597816386035077209210385677284518162336985023502962151465775969507961862820568736543004676439868535775640188584098917533413284844376797297285941524888791401501466624530423689326528054213168201056672989590893583853414110162539122864583953358348775951166211353578440977400428507475679327181038682772945817200201960445064847785221508011893952350688324234443749897213621340677040612747745615276448919507935121141307752692835344166708617454322778699219895865633266409040561742768581056182730443599545881830075941537620590442514083341749674612746994879540562701631131184186066652929592955206755

def shaIVpack : Nat := 11671573325495937498368946100799529883895085558018371439059192957697572342122

def b3IVpack : Nat := 41557658498906279274860226408925318911382702236748615442085426012007055353447

def sha256_compress (st blk : Nat) : Nat :=
  let w0 := be32 blk 0
  let w1 := be32 blk 4
  let w2 := be32 blk 8
  let w3 := be32 blk 12
  let w4 := be32 blk 16
  let w5 := be32 blk 20
  let w6 := be32 blk 24
  let w7 := be32 blk 28
  let w8 := be32 blk 32
  let w9 := be32 blk 36
  let w10 := be32 blk 40
  let w11 := be32 blk 44
  let w12 := be32 blk 48
  let w13 := be32 blk 52
  let w14 := be32 blk 56
  let w15 := be32 blk 60
  let w16 := (w0 + ssig0 w1 + w9 + ssig1 w14) % 4294967296
  let w17 := (w1 + ssig0 w2 + w10 + ssig1 w15) % 4294967296
  let w18 := (w2 + ssig0 w3 + w11 + ssig1 w16) % 4294967296
  let w19 := (w3 + ssig0 w4 + w12 + ssig1 w17) % 4294967296
  let w20 := (w4 + ssig0 w5 + w13 + ssig1 w18) % 4294967296
  let w21 := (w5 + ssig0 w6 + w14 + ssig1 w19) % 4294967296
  let w22 := (w6 + ssig0 w7 + w15 + ssig1 w20) % 4294967296
  let w23 := (w7 + ssig0 w8 + w16 + ssig1 w21) % 4294967296
  let w24 := (w8 + ssig0 w9 + w17 + ssig1 w22) % 4294967296
  let w25 := (w9 + ssig0 w10 + w18 + ssig1 w23) % 4294967296
  let w26 := (w10 + ssig0 w11 + w19 + ssig1 w24) % 4294967296
  let w27 := (w11 + ssig0 w12 + w20 + ssig1 w25) % 4294967296
  let w28 := (w12 + ssig0 w13 + w21 + ssig1 w26) % 4294967296
  let w29 := (w13 + ssig0 w14 + w22 + ssig1 w27) % 4294967296
  let w30 := (w14 + ssig0 w15 + w23 + ssig1 w28) % 4294967296
  let w31 := (w15 + ssig0 w16 + w24 + ssig1 w29) % 4294967296
  let w32 := (w16 + ssig0 w17 + w25 + ssig1 w30) % 4294967296
  let w33 := (w17 + ssig0 w18 + w26 + ssig1 w31) % 4294967296
  let w34 := (w18 + ssig0 w19 + w27 + ssig1 w32) % 4294967296
  let w35 := (w19 + ssig0 w20 + w28 + ssig1 w33) % 4294967296
  let w36 := (w20 + ssig0 w21 + w29 + ssig1 w34) % 4294967296
  let w37 := (w21 + ssig0 w22 + w30 + ssig1 w35) % 4294967296
  let w38 := (w22 + ssig0 w23 + w31 + ssig1 w36) % 4294967296
  let w39 := (w23 + ssig0 w24 + w32 + ssig1 w37) % 4294967296
  let w40 := (w24 + ssig0 w25 + w33 + ssig1 w38) % 4294967296
  let w41 := (w25 + ssig0 w26 + w34 + ssig1 w39) % 4294967296
  let w42 := (w26 + ssig0 w27 + w35 + ssig1 w40) % 4294967296
  let w43 := (w27 + ssig0 w28 + w36 + ssig1 w41) % 4294967296
  let w44 := (w28 + ssig0 w29 + w37 + ssig1 w42) % 4294967296
  let w45 := (w29 + ssig0 w30 + w38 + ssig1 w43) % 4294967296
  let w46 := (w30 + ssig0 w31 + w39 + ssig1 w44) % 4294967296
  let w47 := (w31 + ssig0 w32 + w40 + ssig1 w45) % 4294967296
  let w48 := (w32 + ssig0 w33 + w41 + ssig1 w46) % 4294967296
  let w49 := (w33 + ssig0 w34 + w42 + ssig1 w47) % 4294967296
  let w50 := (w34 + ssig0 w35 + w43 + ssig1 w48) % 4294967296
  let w51 := (w35 + ssig0 w36 + w44 + ssig1 w49) % 4294967296
  let w52 := (w36 + ssig0 w37 + w45 + ssig1 w50) % 4294967296
  let w53 := (w37 + ssig0 w38 + w46 + ssig1 w51) % 4294967296
  let w54 := (w38 + ssig0 w39 + w47 + ssig1 w52) % 4294967296
  let w55 := (w39 + ssig0 w40 + w48 + ssig1 w53) % 4294967296
  let w56 := (w40 + ssig0 w41 + w49 + ssig1 w54) % 4294967296
  let w57 := (w41 + ssig0 w42 + w50 + ssig1 w55) % 4294967296
  let w58 := (w42 + ssig0 w43 + w51 + ssig1 w56) % 4294967296
  let w59 := (w43 + ssig0 w44 + w52 + ssig1 w57) % 4294967296
  let w60 := (w44 + ssig0 w45 + w53 + ssig1 w58) % 4294967296
  let w61 := (w45 + ssig0 w46 + w54 + ssig1 w59) % 4294967296
  let w62 := (w46 + ssig0 w47 + w55 + ssig1 w60) % 4294967296
  let w63 := (w47 + ssig0 w48 + w56 + ssig1 w61) % 4294967296
  let a0 := be32 st 0
  let b0 := be32 st 4
  let c0 := be32 st 8
  let d0 := be32 st 12
  let e0 := be32 st 16
  let f0 := be32 st 20
  let g0 := be32 st 24
  let hv0 := be32 st 28
  let t1x0 := (hv0 + bsig1 e0 + chF e0 f0 g0 + 1116352408 + w0) % 4294967296
  let t2x0 := (bsig0 a0 + majF a0 b0 c0) % 4294967296
  let a1 := (t1x0 + t2x0) % 4294967296
  let b1 := a0
  let c1 := b0
  let d1 := c0
  let e1 := (d0 + t1x0) % 4294967296
  let f1 := e0
  let g1 := f0
  let hv1 := g0
  let t1x1 := (hv1 + bsig1 e1 + chF e1 f1 g1 + 1899447441 + w1) % 4294967296
  let t2x1 := (bsig0 a1 + majF a1 b1 c1) % 4294967296
  let a2 := (t1x1 + t2x1) % 4294967296
  let b2 := a1
  let c2 := b1
  let d2 := c1
  let e2 := (d1 + t1x1) % 4294967296
  let f2 := e1
  let g2 := f1
  let hv2 := g1
  let t1x2 := (hv2 + bsig1 e2 + chF e2 f2 g2 + 3049323471 + w2) % 4294967296
  let t2x2 := (bsig0 a2 + majF a2 b2 c2) % 4294967296
  let a3 := (t1x2 + t2x2) % 4294967296
  let b3 := a2
  let c3 := b2
  let d3 := c2
  let e3 := (d2 + t1x2) % 4294967296
  let f3 := e2
  let g3 := f2
  let hv3 := g2
  let t1x3 := (hv3 + bsig1 e3 + chF e3 f3 g3 + 3921009573 + w3) % 4294967296
  let t2x3 := (bsig0 a3 + majF a3 b3 c3) % 4294967296
  let a4 := (t1x3 + t2x3) % 4294967296
  let b4 := a3
  let c4 := b3
  let d4 := c3
  let e4 := (d3 + t1x3) % 4294967296
  let f4 := e3
  let g4 := f3
  let hv4 := g3
  let t1x4 := (hv4 + bsig1 e4 + chF e4 f4 g4 + 961987163 + w4) % 4294967296
  let t2x4 := (bsig0 a4 + majF a4 b4 c4) % 4294967296
  let a5 := (t1x4 + t2x4) % 4294967296
  let b5 := a4
  let c5 := b4
  let d5 := c4
  let e5 := (d4 + t1x4) % 4294967296
  let f5 := e4
  let g5 := f4
  let hv5 := g4
  let t1x5 := (hv5 + bsig1 e5 + chF e5 f5 g5 + 1508970993 + w5) % 4294967296
  let t2x5 := (bsig0 a5 + majF a5 b5 c5) % 4294967296
  let a6 := (t1x5 + t2x5) % 4294967296
  let b6 := a5
  let c6 := b5
  let d6 := c5
  let e6 := (d5 + t1x5) % 4294967296
  let f6 := e5
  let g6 := f5
  let hv6 := g5
  let t1x6 := (hv6 + bsig1 e6 + chF e6 f6 g6 + 2453635748 + w6) % 4294967296
  let t2x6 := (bsig0 a6 + majF a6 b6 c6) % 4294967296
  let a7 := (t1x6 + t2x6) % 4294967296
  let b7 := a6
  let c7 := b6
  let d7 := c6
  let e7 := (d6 + t1x6) % 4294967296
  let f7 := e6
  let g7 := f6
  let hv7 := g6
  let t1x7 := (hv7 + bsig1 e7 + chF e7 f7 g7 + 2870763221 + w7) % 4294967296
  let t2x7 := (bsig0 a7 + majF a7 b7 c7) % 4294967296
  let a8 := (t1x7 + t2x7) % 4294967296
  let b8 := a7
  let c8 := b7
  let d8 := c7
  let e8 := (d7 + t1x7) % 4294967296
  let f8 := e7
  let g8 := f7
  let hv8 := g7
  let t1x8 := (hv8 + bsig1 e8 + chF e8 f8 g8 + 3624381080 + w8) % 4294967296
  let t2x8 := (bsig0 a8 + majF a8 b8 c8) % 4294967296
  let a9 := (t1x8 + t2x8) % 4294967296
  let b9 := a8
  let c9 := b8
  let d9 := c8
  let e9 := (d8 + t1x8) % 4294967296
  let f9 := e8
  let g9 := f8
  let hv9 := g8
  let t1x9 := (hv9 + bsig1 e9 + chF e9 f9 g9 + 310598401 + w9) % 4294967296
  let t2x9 := (bsig0 a9 + majF a9 b9 c9) % 4294967296
  let a10 := (t1x9 + t2x9) % 4294967296
  let b10 := a9
  let c10 := b9
  let d10 := c9
  let e10 := (d9 + t1x9) % 4294967296
  let f10 := e9
  let g10 := f9
  let hv10 := g9
  let t1x10 := (hv10 + bsig1 e10 + chF e10 f10 g10 + 607225278 + w10) % 4294967296
  let t2x10 := (bsig0 a10 + majF a10 b10 c10) % 4294967296
  let a11 := (t1x10 + t2x10) % 4294967296
  let b11 := a10
  let c11 := b10
  let d11 := c10
  let e11 := (d10 + t1x10) % 4294967296
  let f11 := e10
  let g11 := f10
  let hv11 := g10
  let t1x11 := (hv11 + bsig1 e11 + chF e11 f11 g11 + 1426881987 + w11) % 4294967296
  let t2x11 := (bsig0 a11 + majF a11 b11 c11) % 4294967296
  let a12 := (t1x11 + t2x11) % 4294967296
  let b12 := a11
  let c12 := b11
  let d12 := c11
  let e12 := (d11 + t1x11) % 4294967296
  let f12 := e11
  let g12 := f11
  let hv12 := g11
  let t1x12 := (hv12 + bsig1 e12 + chF e12 f12 g12 + 1925078388 + w12) % 4294967296
  let t2x12 := (bsig0 a12 + majF a12 b12 c12) % 4294967296
  let a13 := (t1x12 + t2x12) % 4294967296
  let b13 := a12
  let c13 := b12
  let d13 := c12
  let e13 := (d12 + t1x12) % 4294967296
  let f13 := e12
  let g13 := f12
  let hv13 := g12
  let t1x13 := (hv13 + bsig1 e13 + chF e13 f13 g13 + 2162078206 + w13) % 4294967296
  let t2x13 := (bsig0 a13 + majF a13 b13 c13) % 4294967296
  let a14 := (t1x13 + t2x13) % 4294967296
  let b14 := a13
  let c14 := b13
  let d14 := c13
  let e14 := (d13 + t1x13) % 4294967296
  let f14 := e13
  let g14 := f13
  let hv14 := g13
  let t1x14 := (hv14 + bsig1 e14 + chF e14 f14 g14 + 2614888103 + w14) % 4294967296
  let t2x14 := (bsig0 a14 + majF a14 b14 c14) % 4294967296
  let a15 := (t1x14 + t2x14) % 4294967296
  let b15 := a14
  let c15 := b14
  let d15 := c14
  let e15 := (d14 + t1x14) % 4294967296
  let f15 := e14
  let g15 := f14
  let hv15 := g14
  let t1x15 := (hv15 + bsig1 e15 + chF e15 f15 g15 + 3248222580 + w15) % 4294967296
  let t2x15 := (bsig0 a15 + majF a15 b15 c15) % 4294967296
  let a16 := (t1x15 + t2x15) % 4294967296
  let b16 := a15
  let c16 := b15
  let d16 := c15
  let e16 := (d15 + t1x15) % 4294967296
  let f16 := e15
  let g16 := f15
  let hv16 := g15
  let t1x16 := (hv16 + bsig1 e16 + chF e16 f16 g16 + 3835390401 + w16) % 4294967296
  let t2x16 := (bsig0 a16 + majF a16 b16 c16) % 4294967296
  let a17 := (t1x16 + t2x16) % 4294967296
  let b17 := a16
  let c17 := b16
  let d17 := c16
  let e17 := (d16 + t1x16) % 4294967296
  let f17 := e16
  let g17 := f16
  let hv17 := g16
  let t1x17 := (hv17 + bsig1 e17 + chF e17 f17 g17 + 4022224774 + w17) % 4294967296
  let t2x17 := (bsig0 a17 + majF a17 b17 c17) % 4294967296
  let a18 := (t1x17 + t2x17) % 4294967296
  let b18 := a17
  let c18 := b17
  let d18 := c17
  let e18 := (d17 + t1x17) % 4294967296
  let f18 := e17
  let g18 := f17
  let hv18 := g17
  let t1x18 := (hv18 + bsig1 e18 + chF e18 f18 g18 + 264347078 + w18) % 4294967296
  let t2x18 := (bsig0 a18 + majF a18 b18 c18) % 4294967296
  let a19 := (t1x18 + t2x18) % 4294967296
  let b19 := a18
  let c19 := b18
  let d19 := c18
  let e19 := (d18 + t1x18) % 4294967296
  let f19 := e18
  let g19 := f18
  let hv19 := g18
  let t1x19 := (hv19 + bsig1 e19 + chF e19 f19 g19 + 604807628 + w19) % 4294967296
  let t2x19 := (bsig0 a19 + majF a19 b19 c19) % 4294967296
  let a20 := (t1x19 + t2x19) % 4294967296
  let b20 := a19
  let c20 := b19
  let d20 := c19
  let e20 := (d19 + t1x19) % 4294967296
  let f20 := e19
  let g20 := f19
  let hv20 := g19
  let t1x20 := (hv20 + bsig1 e20 + chF e20 f20 g20 + 770255983 + w20) % 4294967296
  let t2x20 := (bsig0 a20 + majF a20 b20 c20) % 4294967296
  let a21 := (t1x20 + t2x20) % 4294967296
  let b21 := a20
  let c21 := b20
  let d21 := c20
  let e21 := (d20 + t1x20) % 4294967296
  let f21 := e20
  let g21 := f20
  let hv21 := g20
  let t1x21 := (hv21 + bsig1 e21 + chF e21 f21 g21 + 1249150122 + w21) % 4294967296
  let t2x21 := (bsig0 a21 + majF a21 b21 c21) % 4294967296
  let a22 := (t1x21 + t2x21) % 4294967296
  let b22 := a21
  let c22 := b21
  let d22 := c21
  let e22 := (d21 + t1x21) % 4294967296
  let f22 := e21
  let g22 := f21
  let hv22 := g21
  let t1x22 := (hv22 + bsig1 e22 + chF e22 f22 g22 + 1555081692 + w22) % 4294967296
  let t2x22 := (bsig0 a22 + majF a22 b22 c22) % 4294967296
  let a23 := (t1x22 + t2x22) % 4294967296
  let b23 := a22
  let c23 := b22
  let d23 := c22
  let e23 := (d22 + t1x22) % 4294967296
  let f23 := e22
  let g23 := f22
  let hv23 := g22
  let t1x23 := (hv23 + bsig1 e23 + chF e23 f23 g23 + 1996064986 + w23) % 4294967296
  let t2x23 := (bsig0 a23 + majF a23 b23 c23) % 4294967296
  let a24 := (t1x23 + t2x23) % 4294967296
  let b24 := a23
  let c24 := b23
  let d24 := c23
  let e24 := (d23 + t1x23) % 4294967296
  let f24 := e23
  let g24 := f23
  let hv24 := g23
  let t1x24 := (hv24 + bsig1 e24 + chF e24 f24 g24 + 2554220882 + w24) % 4294967296
  let t2x24 := (bsig0 a24 + majF a24 b24 c24) % 4294967296
  let a25 := (t1x24 + t2x24) % 4294967296
  let b25 := a24
  let c25 := b24
  let d25 := c24
  let e25 := (d24 + t1x24) % 4294967296
  let f25 := e24
  let g25 := f24
  let hv25 := g24
  let t1x25 := (hv25 + bsig1 e25 + chF e25 f25 g25 + 2821834349 + w25) % 4294967296
  let t2x25 := (bsig0 a25 + majF a25 b25 c25) % 4294967296
  let a26 := (t1x25 + t2x25) % 4294967296
  let b26 := a25
  let c26 := b25
  let d26 := c25
  let e26 := (d25 + t1x25) % 4294967296
  let f26 := e25
  let g26 := f25
  let hv26 := g25
  let t1x26 := (hv26 + bsig1 e26 + chF e26 f26 g26 + 2952996808 + w26) % 4294967296
  let t2x26 := (bsig0 a26 + majF a26 b26 c26) % 4294967296
  let a27 := (t1x26 + t2x26) % 4294967296
  let b27 := a26
  let c27 := b26
  let d27 := c26
  let e27 := (d26 + t1x26) % 4294967296
  let f27 := e26
  let g27 := f26
  let hv27 := g26
  let t1x27 := (hv27 + bsig1 e27 + chF e27 f27 g27 + 3210313671 + w27) % 4294967296
  let t2x27 := (bsig0 a27 + majF a27 b27 c27) % 4294967296
  let a28 := (t1x27 + t2x27) % 4294967296
  let b28 := a27
  let c28 := b27
  let d28 := c27
  let e28 := (d27 + t1x27) % 4294967296
  let f28 := e27
  let g28 := f27
  let hv28 := g27
  let t1x28 := (hv28 + bsig1 e28 + chF e28 f28 g28 + 3336571891 + w28) % 4294967296
  let t2x28 := (bsig0 a28 + majF a28 b28 c28) % 4294967296
  let a29 := (t1x28 + t2x28) % 4294967296
  let b29 := a28
  let c29 := b28
  let d29 := c28
  let e29 := (d28 + t1x28) % 4294967296
  let f29 := e28
  let g29 := f28
  let hv29 := g28
  let t1x29 := (hv29 + bsig1 e29 + chF e29 f29 g29 + 3584528711 + w29) % 4294967296
  let t2x29 := (bsig0 a29 + majF a29 b29 c29) % 4294967296
  let a30 := (t1x29 + t2x29) % 4294967296
  let b30 := a29
  let c30 := b29
  let d30 := c29
  let e30 := (d29 + t1x29) % 4294967296
  let f30 := e29
  let g30 := f29
  let hv30 := g29
  let t1x30 := (hv30 + bsig1 e30 + chF e30 f30 g30 + 113926993 + w30) % 4294967296
  let t2x30 := (bsig0 a30 + majF a30 b30 c30) % 4294967296
  let a31 := (t1x30 + t2x30) % 4294967296
  let b31 := a30
  let c31 := b30
  let d31 := c30
  let e31 := (d30 + t1x30) % 4294967296
  let f31 := e30
  let g31 := f30
  let hv31 := g30
  let t1x31 := (hv31 + bsig1 e31 + chF e31 f31 g31 + 338241895 + w31) % 4294967296
  let t2x31 := (bsig0 a31 + majF a31 b31 c31) % 4294967296
  let a32 := (t1x31 + t2x31) % 4294967296
  let b32 := a31
  let c32 := b31
  let d32 := c31
  let e32 := (d31 + t1x31) % 4294967296
  let f32 := e31
  let g32 := f31
  let hv32 := g31
  let t1x32 := (hv32 + bsig1 e32 + chF e32 f32 g32 + 666307205 + w32) % 4294967296
  let t2x32 := (bsig0 a32 + majF a32 b32 c32) % 4294967296
  let a33 := (t1x32 + t2x32) % 4294967296
  let b33 := a32
  let c33 := b32
  let d33 := c32
  let e33 := (d32 + t1x32) % 4294967296
  let f33 := e32
  let g33 := f32
  let hv33 := g32
  let t1x33 := (hv33 + bsig1 e33 + chF e33 f33 g33 + 773529912 + w33) % 4294967296
  let t2x33 := (bsig0 a33 + majF a33 b33 c33) % 4294967296
  let a34 := (t1x33 + t2x33) % 4294967296
  let b34 := a33
  let c34 := b33
  let d34 := c33
  let e34 := (d33 + t1x33) % 4294967296
  let f34 := e33
  let g34 := f33
  let hv34 := g33
  let t1x34 := (hv34 + bsig1 e34 + chF e34 f34 g34 + 1294757372 + w34) % 4294967296
  let t2x34 := (bsig0 a34 + majF a34 b34 c34) % 4294967296
  let a35 := (t1x34 + t2x34) % 4294967296
  let b35 := a34
  let c35 := b34
  let d35 := c34
  let e35 := (d34 + t1x34) % 4294967296
  let f35 := e34
  let g35 := f34
  let hv35 := g34
  let t1x35 := (hv35 + bsig1 e35 + chF e35 f35 g35 + 1396182291 + w35) % 4294967296
  let t2x35 := (bsig0 a35 + majF a35 b35 c35) % 4294967296
  let a36 := (t1x35 + t2x35) % 4294967296
  let b36 := a35
  let c36 := b35
  let d36 := c35
  let e36 := (d35 + t1x35) % 4294967296
  let f36 := e35
  let g36 := f35
  let hv36 := g35
  let t1x36 := (hv36 + bsig1 e36 + chF e36 f36 g36 + 1695183700 + w36) % 4294967296
  let t2x36 := (bsig0 a36 + majF a36 b36 c36) % 4294967296
  let a37 := (t1x36 + t2x36) % 4294967296
  let b37 := a36
  let c37 := b36
  let d37 := c36
  let e37 := (d36 + t1x36) % 4294967296
  let f37 := e36
  let g37 := f36
  let hv37 := g36
  let t1x37 := (hv37 + bsig1 e37 + chF e37 f37 g37 + 1986661051 + w37) % 4294967296
  let t2x37 := (bsig0 a37 + majF a37 b37 c37) % 4294967296
  let a38 := (t1x37 + t2x37) % 4294967296
  let b38 := a37
  let c38 := b37
  let d38 := c37
  let e38 := (d37 + t1x37) % 4294967296
  let f38 := e37
  let g38 := f37
  let hv38 := g37
  let t1x38 := (hv38 + bsig1 e38 + chF e38 f38 g38 + 2177026350 + w38) % 4294967296
  let t2x38 := (bsig0 a38 + majF a38 b38 c38) % 4294967296
  let a39 := (t1x38 + t2x38) % 4294967296
  let b39 := a38
  let c39 := b38
  let d39 := c38
  let e39 := (d38 + t1x38) % 4294967296
  let f39 := e38
  let g39 := f38
  let hv39 := g38
  let t1x39 := (hv39 + bsig1 e39 + chF e39 f39 g39 + 2456956037 + w39) % 4294967296
  let t2x39 := (bsig0 a39 + majF a39 b39 c39) % 4294967296
  let a40 := (t1x39 + t2x39) % 4294967296
  let b40 := a39
  let c40 := b39
  let d40 := c39
  let e40 := (d39 + t1x39) % 4294967296
  let f40 := e39
  let g40 := f39
  let hv40 := g39
  let t1x40 := (hv40 + bsig1 e40 + chF e40 f40 g40 + 2730485921 + w40) % 4294967296
  let t2x40 := (bsig0 a40 + majF a40 b40 c40) % 4294967296
  let a41 := (t1x40 + t2x40) % 4294967296
  let b41 := a40
  let c41 := b40
  let d41 := c40
  let e41 := (d40 + t1x40) % 4294967296
  let f41 := e40
  let g41 := f40
  let hv41 := g40
  let t1x41 := (hv41 + bsig1 e41 + chF e41 f41 g41 + 2820302411 + w41) % 4294967296
  let t2x41 := (bsig0 a41 + majF a41 b41 c41) % 4294967296
  let a42 := (t1x41 + t2x41) % 4294967296
  let b42 := a41
  let c42 := b41
  let d42 := c41
  let e42 := (d41 + t1x41) % 4294967296
  let f42 := e41
  let g42 := f41
  let hv42 := g41
  let t1x42 := (hv42 + bsig1 e42 + chF e42 f42 g42 + 3259730800 + w42) % 4294967296
  let t2x42 := (bsig0 a42 + majF a42 b42 c42) % 4294967296
  let a43 := (t1x42 + t2x42) % 4294967296
  let b43 := a42
  let c43 := b42
  let d43 := c42
  let e43 := (d42 + t1x42) % 4294967296
  let f43 := e42
  let g43 := f42
  let hv43 := g42
  let t1x43 := (hv43 + bsig1 e43 + chF e43 f43 g43 + 3345764771 + w43) % 4294967296
  let t2x43 := (bsig0 a43 + majF a43 b43 c43) % 4294967296
  let a44 := (t1x43 + t2x43) % 4294967296
  let b44 := a43
  let c44 := b43
  let d44 := c43
  let e44 := (d43 + t1x43) % 4294967296
  let f44 := e43
  let g44 := f43
  let hv44 := g43
  let t1x44 := (hv44 + bsig1 e44 + chF e44 f44 g44 + 3516065817 + w44) % 4294967296
  let t2x44 := (bsig0 a44 + majF a44 b44 c44) % 4294967296
  let a45 := (t1x44 + t2x44) % 4294967296
  let b45 := a44
  let c45 := b44
  let d45 := c44
  let e45 := (d44 + t1x44) % 4294967296
  let f45 := e44
  let g45 := f44
  let hv45 := g44
  let t1x45 := (hv45 + bsig1 e45 + chF e45 f45 g45 + 3600352804 + w45) % 4294967296
  let t2x45 := (bsig0 a45 + majF a45 b45 c45) % 4294967296
  let a46 := (t1x45 + t2x45) % 4294967296
  let b46 := a45
  let c46 := b45
  let d46 := c45
  let e46 := (d45 + t1x45) % 4294967296
  let f46 := e45
  let g46 := f45
  let hv46 := g45
  let t1x46 := (hv46 + bsig1 e46 + chF e46 f46 g46 + 4094571909 + w46) % 4294967296
  let t2x46 := (bsig0 a46 + majF a46 b46 c46) % 4294967296
  let a47 := (t1x46 + t2x46) % 4294967296
  let b47 := a46
  let c47 := b46
  let d47 := c46
  let e47 := (d46 + t1x46) % 4294967296
  let f47 := e46
  let g47 := f46
  let hv47 := g46
  let t1x47 := (hv47 + bsig1 e47 + chF e47 f47 g47 + 275423344 + w47) % 4294967296
  let t2x47 := (bsig0 a47 + majF a47 b47 c47) % 4294967296
  let a48 := (t1x47 + t2x47) % 4294967296
  let b48 := a47
  let c48 := b47
  let d48 := c47
  let e48 := (d47 + t1x47) % 4294967296
  let f48 := e47
  let g48 := f47
  let hv48 := g47
  let t1x48 := (hv48 + bsig1 e48 + chF e48 f48 g48 + 430227734 + w48) % 4294967296
  let t2x48 := (bsig0 a48 + majF a48 b48 c48) % 4294967296
  let a49 := (t1x48 + t2x48) % 4294967296
  let b49 := a48
  let c49 := b48
  let d49 := c48
  let e49 := (d48 + t1x48) % 4294967296
  let f49 := e48
  let g49 := f48
  let hv49 := g48
  let t1x49 := (hv49 + bsig1 e49 + chF e49 f49 g49 + 506948616 + w49) % 4294967296
  let t2x49 := (bsig0 a49 + majF a49 b49 c49) % 4294967296
  let a50 := (t1x49 + t2x49) % 4294967296
  let b50 := a49
  let c50 := b49
  let d50 := c49
  let e50 := (d49 + t1x49) % 4294967296
  let f50 := e49
  let g50 := f49
  let hv50 := g49
  let t1x50 := (hv50 + bsig1 e50 + chF e50 f50 g50 + 659060556 + w50) % 4294967296
  let t2x50 := (bsig0 a50 + majF a50 b50 c50) % 4294967296
  let a51 := (t1x50 + t2x50) % 4294967296
  let b51 := a50
  let c51 := b50
  let d51 := c50
  let e51 := (d50 + t1x50) % 4294967296
  let f51 := e50
  let g51 := f50
  let hv51 := g50
  let t1x51 := (hv51 + bsig1 e51 + chF e51 f51 g51 + 883997877 + w51) % 4294967296
  let t2x51 := (bsig0 a51 + majF a51 b51 c51) % 4294967296
  let a52 := (t1x51 + t2x51) % 4294967296
  let b52 := a51
  let c52 := b51
  let d52 := c51
  let e52 := (d51 + t1x51) % 4294967296
  let f52 := e51
  let g52 := f51
  let hv52 := g51
  let t1x52 := (hv52 + bsig1 e52 + chF e52 f52 g52 + 958139571 + w52) % 4294967296
  let t2x52 := (bsig0 a52 + majF a52 b52 c52) % 4294967296
  let a53 := (t1x52 + t2x52) % 4294967296
  let b53 := a52
  let c53 := b52
  let d53 := c52
  let e53 := (d52 + t1x52) % 4294967296
  let f53 := e52
  let g53 := f52
  let hv53 := g52
  let t1x53 := (hv53 + bsig1 e53 + chF e53 f53 g53 + 1322822218 + w53) % 4294967296
  let t2x53 := (bsig0 a53 + majF a53 b53 c53) % 4294967296
  let a54 := (t1x53 + t2x53) % 4294967296
  let b54 := a53
  let c54 := b53
  let d54 := c53
  let e54 := (d53 + t1x53) % 4294967296
  let f54 := e53
  let g54 := f53
  let hv54 := g53
  let t1x54 := (hv54 + bsig1 e54 + chF e54 f54 g54 + 1537002063 + w54) % 4294967296
  let t2x54 := (bsig0 a54 + majF a54 b54 c54) % 4294967296
  let a55 := (t1x54 + t2x54) % 4294967296
  let b55 := a54
  let c55 := b54
  let d55 := c54
  let e55 := (d54 + t1x54) % 4294967296
  let f55 := e54
  let g55 := f54
  let hv55 := g54
  let t1x55 := (hv55 + bsig1 e55 + chF e55 f55 g55 + 1747873779 + w55) % 4294967296
  let t2x55 := (bsig0 a55 + majF a55 b55 c55) % 4294967296
  let a56 := (t1x55 + t2x55) % 4294967296
  let b56 := a55
  let c56 := b55
  let d56 := c55
  let e56 := (d55 + t1x55) % 4294967296
  let f56 := e55
  let g56 := f55
  let hv56 := g55
  let t1x56 := (hv56 + bsig1 e56 + chF e56 f56 g56 + 1955562222 + w56) % 4294967296
  let t2x56 := (bsig0 a56 + majF a56 b56 c56) % 4294967296
  let a57 := (t1x56 + t2x56) % 4294967296
  let b57 := a56
  let c57 := b56
  let d57 := c56
  let e57 := (d56 + t1x56) % 4294967296
  let f57 := e56
  let g57 := f56
  let hv57 := g56
  let t1x57 := (hv57 + bsig1 e57 + chF e57 f57 g57 + 2024104815 + w57) % 4294967296
  let t2x57 := (bsig0 a57 + majF a57 b57 c57) % 4294967296
  let a58 := (t1x57 + t2x57) % 4294967296
  let b58 := a57
  let c58 := b57
  let d58 := c57
  let e58 := (d57 + t1x57) % 4294967296
  let f58 := e57
  let g58 := f57
  let hv58 := g57
  let t1x58 := (hv58 + bsig1 e58 + chF e58 f58 g58 + 2227730452 + w58) % 4294967296
  let t2x58 := (bsig0 a58 + majF a58 b58 c58) % 4294967296
  let a59 := (t1x58 + t2x58) % 4294967296
  let b59 := a58
  let c59 := b58
  let d59 := c58
  let e59 := (d58 + t1x58) % 4294967296
  let f59 := e58
  let g59 := f58
  let hv59 := g58
  let t1x59 := (hv59 + bsig1 e59 + chF e59 f59 g59 + 2361852424 + w59) % 4294967296
  let t2x59 := (bsig0 a59 + majF a59 b59 c59) % 4294967296
  let a60 := (t1x59 + t2x59) % 4294967296
  let b60 := a59
  let c60 := b59
  let d60 := c59
  let e60 := (d59 + t1x59) % 4294967296
  let f60 := e59
  let g60 := f59
  let hv60 := g59
  let t1x60 := (hv60 + bsig1 e60 + chF e60 f60 g60 + 2428436474 + w60) % 4294967296
  let t2x60 := (bsig0 a60 + majF a60 b60 c60) % 4294967296
  let a61 := (t1x60 + t2x60) % 4294967296
  let b61 := a60
  let c61 := b60
  let d61 := c60
  let e61 := (d60 + t1x60) % 4294967296
  let f61 := e60
  let g61 := f60
  let hv61 := g60
  let t1x61 := (hv61 + bsig1 e61 + chF e61 f61 g61 + 2756734187 + w61) % 4294967296
  let t2x61 := (bsig0 a61 + majF a61 b61 c61) % 4294967296
  let a62 := (t1x61 + t2x61) % 4294967296
  let b62 := a61
  let c62 := b61
  let d62 := c61
  let e62 := (d61 + t1x61) % 4294967296
  let f62 := e61
  let g62 := f61
  let hv62 := g61
  let t1x62 := (hv62 + bsig1 e62 + chF e62 f62 g62 + 3204031479 + w62) % 4294967296
  let t2x62 := (bsig0 a62 + majF a62 b62 c62) % 4294967296
  let a63 := (t1x62 + t2x62) % 4294967296
  let b63 := a62
  let c63 := b62
  let d63 := c62
  let e63 := (d62 + t1x62) % 4294967296
  let f63 := e62
  let g63 := f62
  let hv63 := g62
  let t1x63 := (hv63 + bsig1 e63 + chF e63 f63 g63 + 3329325298 + w63) % 4294967296
  let t2x63 := (bsig0 a63 + majF a63 b63 c63) % 4294967296
  let a64 := (t1x63 + t2x63) % 4294967296
  let b64 := a63
  let c64 := b63
  let d64 := c63
  let e64 := (d63 + t1x63) % 4294967296
  let f64 := e63
  let g64 := f63
  let hv64 := g63
  be32pack ((a64 + a0) % 4294967296) +
    be32pack ((b64 + b0) % 4294967296) * 4294967296 +
    be32pack ((c64 + c0) % 4294967296) * 18446744073709551616 +
    be32pack ((d64 + d0) % 4294967296) * 79228162514264337593543950336 +
    be32pack ((e64 + e0) % 4294967296) * 340282366920938463463374607431768211456 +
    be32pack ((f64 + f0) % 4294967296) * 1461501637330902918203684832716283019655932542976 +
    be32pack ((g64 + g0) % 4294967296) * 6277101735386680763835789423207666416102355444464034512896 +
    be32pack ((hv64 + hv0) % 4294967296) * 26959946667150639794667015087019630673637144422540572481103610249216

def b3rounds7 (v0 v1 v2 v3 v4 v5 v6 v7 v8 v9 v10 v11 v12 v13 v14 v15 m0 m1 m2 m3 m4 m5 m6 m7 m8 m9 m10 m11 m12 m13 m14 m15 : Nat) : Nat × Nat × Nat × Nat × Nat × Nat × Nat × Nat × Nat × Nat × Nat × Nat × Nat × Nat × Nat × Nat :=
  let (v0, v4, v8, v12) := b3g v0 v4 v8 v12 m0 m1
  let (v1, v5, v9, v13) := b3g v1 v5 v9 v13 m2 m3
  let (v2, v6, v10, v14) := b3g v2 v6 v10 v14 m4 m5
  let (v3, v7, v11, v15) := b3g v3 v7 v11 v15 m6 m7
  let (v0, v5, v10, v15) := b3g v0 v5 v10 v15 m8 m9
  let (v1, v6, v11, v12) := b3g v1 v6 v11 v12 m10 m11
  let (v2, v7, v8, v13) := b3g v2 v7 v8 v13 m12 m13
  let (v3, v4, v9, v14) := b3g v3 v4 v9 v14 m14 m15
  let (v0, v4, v8, v12) := b3g v0 v4 v8 v12 m2 m6
  let (v1, v5, v9, v13) := b3g v1 v5 v9 v13 m3 m10
  let (v2, v6, v10, v14) := b3g v2 v6 v10 v14 m7 m0
  let (v3, v7, v11, v15) := b3g v3 v7 v11 v15 m4 m13
  let (v0, v5, v10, v15) := b3g v0 v5 v10 v15 m1 m11
  let (v1, v6, v11, v12) := b3g v1 v6 v11 v12 m12 m5
  let (v2, v7, v8, v13) := b3g v2 v7 v8 v13 m9 m14
  let (v3, v4, v9, v14) := b3g v3 v4 v9 v14 m15 m8
  let (v0, v4, v8, v12) := b3g v0 v4 v8 v12 m3 m4
  let (v1, v5, v9, v13) := b3g v1 v5 v9 v13 m10 m12
  let (v2, v6, v10, v14) := b3g v2 v6 v10 v14 m13 m2
  let (v3, v7, v11, v15) := b3g v3 v7 v11 v15 m7 m14
  let (v0, v5, v10, v15) := b3g v0 v5 v10 v15 m6 m5
  let (v1, v6, v11, v12) := b3g v1 v6 v11 v12 m9 m0
  let (v2, v7, v8, v13) := b3g v2 v7 v8 v13 m11 m15
  let (v3, v4, v9, v14) := b3g v3 v4 v9 v14 m8 m1
  let (v0, v4, v8, v12) := b3g v0 v4 v8 v12 m10 m7
  let (v1, v5, v9, v13) := b3g v1 v5 v9 v13 m12 m9
  let (v2, v6, v10, v14) := b3g v2 v6 v10 v14 m14 m3
  let (v3, v7, v11, v15) := b3g v3 v7 v11 v15 m13 m15
  let (v0, v5, v10, v15) := b3g v0 v5 v10 v15 m4 m0
  let (v1, v6, v11, v12) := b3g v1 v6 v11 v12 m11 m2
  let (v2, v7, v8, v13) := b3g v2 v7 v8 v13 m5 m8
  let (v3, v4, v9, v14) := b3g v3 v4 v9 v14 m1 m6
  let (v0, v4, v8, v12) := b3g v0 v4 v8 v12 m12 m13
  let (v1, v5, v9, v13) := b3g v1 v5 v9 v13 m9 m11
  let (v2, v6, v10, v14) := b3g v2 v6 v10 v14 m15 m10
  let (v3, v7, v11, v15) := b3g v3 v7 v11 v15 m14 m8
  let (v0, v5, v10, v15) := b3g v0 v5 v10 v15 m7 m2
  let (v1, v6, v11, v12) := b3g v1 v6 v11 v12 m5 m3
  let (v2, v7, v8, v13) := b3g v2 v7 v8 v13 m0 m1
  let (v3, v4, v9, v14) := b3g v3 v4 v9 v14 m6 m4
  let (v0, v4, v8, v12) := b3g v0 v4 v8 v12 m9 m14
  let (v1, v5, v9, v13) := b3g v1 v5 v9 v13 m11 m5
  let (v2, v6, v10, v14) := b3g v2 v6 v10 v14 m8 m12
  let (v3, v7, v11, v15) := b3g v3 v7 v11 v15 m15 m1
  let (v0, v5, v10, v15) := b3g v0 v5 v10 v15 m13 m3
  let (v1, v6, v11, v12) := b3g v1 v6 v11 v12 m0 m10
  let (v2, v7, v8, v13) := b3g v2 v7 v8 v13 m2 m6
  let (v3, v4, v9, v14) := b3g v3 v4 v9 v14 m4 m7
  let (v0, v4, v8, v12) := b3g v0 v4 v8 v12 m11 m15
  let (v1, v5, v9, v13) := b3g v1 v5 v9 v13 m5 m0
  let (v2, v6, v10, v14) := b3g v2 v6 v10 v14 m1 m9
  let (v3, v7, v11, v15) := b3g v3 v7 v11 v15 m8 m6
  let (v0, v5, v10, v15) := b3g v0 v5 v10 v15 m14 m10
  let (v1, v6, v11, v12) := b3g v1 v6 v11 v12 m2 m12
  let (v2, v7, v8, v13) := b3g v2 v7 v8 v13 m3 m4
  let (v3, v4, v9, v14) := b3g v3 v4 v9 v14 m7 m13
  (v0, v1, v2, v3, v4, v5, v6, v7, v8, v9, v10, v11, v12, v13, v14, v15)

def blake3_compress (st blk : Nat) : Nat :=
  let (x0, x1, x2, x3, x4, x5, x6, x7, x8, x9, x10, x11, x12, x13, x14, x15) :=
    b3rounds7 (w32 st 0) (w32 st 1) (w32 st 2) (w32 st 3) (w32 st 4) (w32 st 5) (w32 st 6) (w32 st 7) 1779033703 3144134277 1013904242 2773480762 1359893119 2600822924 528734635 1541459225 (w32 blk 0) (w32 blk 1) (w32 blk 2) (w32 blk 3) (w32 blk 4) (w32 blk 5) (w32 blk 6) (w32 blk 7) (w32 blk 8) (w32 blk 9) (w32 blk 10) (w32 blk 11) (w32 blk 12) (w32 blk 13) (w32 blk 14) (w32 blk 15)
  (x0 ^^^ x8) +
    (x1 ^^^ x9) * 4294967296 +
    (x2 ^^^ x10) * 18446744073709551616 +
    (x3 ^^^ x11) * 79228162514264337593543950336 +
    (x4 ^^^ x12) * 340282366920938463463374607431768211456 +
    (x5 ^^^ x13) * 1461501637330902918203684832716283019655932542976 +
    (x6 ^^^ x14) * 6277101735386680763835789423207666416102355444464034512896 +
    (x7 ^^^ x15) * 26959946667150639794667015087019630673637144422540572481103610249216

def b3compressFull (cv blk t blen flags : Nat) : Nat :=
  let (x0, x1, x2, x3, x4, x5, x6, x7, x8, x9, x10, x11, x12, x13, x14, x15) :=
    b3rounds7 (w32 cv 0) (w32 cv 1) (w32 cv 2) (w32 cv 3) (w32 cv 4) (w32 cv 5) (w32 cv 6) (w32 cv 7) 1779033703 3144134277 1013904242 2773480762 (t % 4294967296) (t / 4294967296 % 4294967296) blen flags (w32 blk 0) (w32 blk 1) (w32 blk 2) (w32 blk 3) (w32 blk 4) (w32 blk 5) (w32 blk 6) (w32 blk 7) (w32 blk 8) (w32 blk 9) (w32 blk 10) (w32 blk 11) (w32 blk 12) (w32 blk 13) (w32 blk 14) (w32 blk 15)
  (x0 ^^^ x8) +
    (x1 ^^^ x9) * 4294967296 +
    (x2 ^^^ x10) * 18446744073709551616 +
    (x3 ^^^ x11) * 79228162514264337593543950336 +
    (x4 ^^^ x12) * 340282366920938463463374607431768211456 +
    (x5 ^^^ x13) * 1461501637330902918203684832716283019655932542976 +
    (x6 ^^^ x14) * 6277101735386680763835789423207666416102355444464034512896 +
    (x7 ^^^ x15) * 26959946667150639794667015087019630673637144422540572481103610249216
/-- AES S-box lookup (the table `SBOX` packed as the `Nat` `SBOXN`). -/
def sboxAt (b : Nat) : Nat := SBOXN / 256 ^ b % 256

/-- GF(2^8) multiplication by 2 (primitives.rs `gf_mul2`). -/
def gf2 (x : Nat) : Nat := (x * 2 &&& 255) ^^^ x / 128 * 27

/-- GF(2^8) multiplication by 3 (primitives.rs `gf_mul3`). -/
def gf3 (x : Nat) : Nat := gf2 x ^^^ x

/-- One MixColumns column over four input bytes, packed as a 32-bit word. -/
def mixCol (a0 a1 a2 a3 : Nat) : Nat :=
  cat (gf2 a0 ^^^ gf3 a1 ^^^ a2 ^^^ a3) 8
    (cat (a0 ^^^ gf2 a1 ^^^ gf3 a2 ^^^ a3) 8
      (cat (a0 ^^^ a1 ^^^ gf2 a2 ^^^ gf3 a3) 8
        (gf3 a0 ^^^ a1 ^^^ a2 ^^^ gf2 a3)))

/-- One AESENC round (primitives.rs `aesenc_round`): SubBytes, ShiftRows,
MixColumns, AddRoundKey, on a 16-byte state packed as a `Nat`. -/
def aesenc (s k : Nat) : Nat :=
  let b := fun j => sboxAt (s / 256 ^ j % 256)
  cat (mixCol (b 0) (b 5) (b 10) (b 15)) 32
    (cat (mixCol (b 4) (b 9) (b 14) (b 3)) 32
      (cat (mixCol (b 8) (b 13) (b 2) (b 7)) 32
        (mixCol (b 12) (b 1) (b 6) (b 11)))) ^^^ k

/-- Four AESENC rounds with a single key (primitives.rs `aes_expand_block`). -/
def aes4 (s k : Nat) : Nat := aesenc (aesenc (aesenc (aesenc s k) k) k) k

/-- AES compression primitive (primitives.rs `aes_compress`): the low state
half takes 4 AESENC rounds with block keys `k0 k1 k2 k3`, the high half with
the rotated keys `k2 k3 k0 k1`. -/
def aes_compress (st blk : Nat) : Nat :=
  let k0 := blk % 2 ^ 128
  let k1 := blk / 2 ^ 128 % 2 ^ 128
  let k2 := blk / 2 ^ 256 % 2 ^ 128
  let k3 := blk / 2 ^ 384 % 2 ^ 128
  let lo := aesenc (aesenc (aesenc (aesenc (st % 2 ^ 128) k0) k1) k2) k3
  let hi := aesenc (aesenc (aesenc (aesenc (st / 2 ^ 128 % 2 ^ 128) k2) k3) k0) k1
  cat lo 128 hi

/-! The full BLAKE3 hash (the external `blake3` crate: `blake3::hash` and
`blake3::Hasher`), embedded from the published BLAKE3 algorithm.  Inputs are
split into 1024-byte chunks, each chunk into 64-byte blocks; chaining values
are 8 little-endian `u32` words packed as a 32-byte `Nat`.  Flag bits:
CHUNK_START = 1, CHUNK_END = 2, PARENT = 4, ROOT = 8. -/

/-- Split a byte list into consecutive pieces of at most `size` bytes
(the last piece may be shorter; an empty input gives one empty piece).
`fuel` only drives termination and is taken `≥ length`. -/
def chunksUpTo (size : Nat) : Nat → List Nat → List (List Nat)
  | 0, bs => [bs]
  | f + 1, bs =>
    if bs.length ≤ size then [bs]
    else bs.take size :: chunksUpTo size f (bs.drop size)

/-- Fold the BLAKE3 chunk compression over the blocks of one chunk with
counter `t`; CHUNK_START on the first block, CHUNK_END (and ROOT when the
chunk is the root) on the last. -/
def b3procBlocks (t : Nat) (root : Bool) : Bool → Nat → List (List Nat) → Nat
  | _, cv, [] => cv
  | first, cv, [b] =>
    b3compressFull cv (packLE b) t b.length
      ((if first then 1 else 0) + 2 + (if root then 8 else 0))
  | first, cv, b :: bs =>
    b3procBlocks t root false (b3compressFull cv (packLE b) t 64 (if first then 1 else 0)) bs

/-- Chaining value of the BLAKE3 chunk with bytes `bs` and counter `t`. -/
def b3chunkCV (bs : List Nat) (t : Nat) (root : Bool) : Nat :=
  b3procBlocks t root true b3IVpack (chunksUpTo 64 bs.length bs)

/-- Largest power of two that is strictly below `n` (for `n ≥ 2`),
computed by doubling `acc` while that stays below `n`. -/
def lp2 : Nat → Nat → Nat → Nat
  | 0, acc, _ => acc
  | f + 1, acc, n => if acc * 2 < n then lp2 f (acc * 2) n else acc

/-- Combine a list of chunk chaining values into the BLAKE3 tree root: the
left subtree takes the largest power of two of chunks strictly below the
total.  Parent compressions use flag PARENT, the final one also ROOT. -/
def b3tree : Nat → List Nat → Bool → Nat
  | 0, _, _ => 0
  | f + 1, cvs, root =>
    match cvs with
    | [] => 0
    | [cv] => cv
    | cvs' =>
      let k := lp2 cvs'.length 1 cvs'.length
      b3compressFull b3IVpack
        (cat (b3tree f (cvs'.take k) false) 256 (b3tree f (cvs'.drop k) false))
        0 64 (if root then 12 else 4)

/-- Chaining values of a list of chunks, with increasing chunk counters. -/
def b3cvList : List (List Nat) → Nat → List Nat
  | [], _ => []
  | c :: r, i => b3chunkCV c i false :: b3cvList r (i + 1)

/-- The full 32-byte-output BLAKE3 hash of a byte string, packed LE. -/
def blake3Hash (input : List Nat) : Nat :=
  match chunksUpTo 1024 input.length input with
  | [c] => b3chunkCV c 0 true
  | cs => b3tree cs.length (b3cvList cs 0) true

/-- Full SHA-256 digest of a 32-byte message (the `sha2` crate's
`Sha256::digest` as used in `finalize`): one padded block, `0x80` after the
message and the bit length 256 in the last big-endian word. -/
def sha256_digest32 (msg : Nat) : Nat :=
  sha256_compress shaIVpack (msg % 2 ^ 256 + 128 * 256 ^ 32 + 256 ^ 62)

/-- The 32 bytes of a packed 32-byte array, as a list. -/
def bytes32 (n : Nat) : List Nat :=
  [getByte n 0, getByte n 1, getByte n 2, getByte n 3, getByte n 4,
   getByte n 5, getByte n 6, getByte n 7, getByte n 8, getByte n 9,
   getByte n 10, getByte n 11, getByte n 12, getByte n 13, getByte n 14,
   getByte n 15, getByte n 16, getByte n 17, getByte n 18, getByte n 19,
   getByte n 20, getByte n 21, getByte n 22, getByte n 23, getByte n 24,
   getByte n 25, getByte n 26, getByte n 27, getByte n 28, getByte n 29,
   getByte n 30, getByte n 31]

/-! The UniversalHash v4 hasher itself (uhash.rs). -/

/-- uhash.rs `GOLDEN_RATIO = 0x9E3779B97F4A7C15`. -/
def GOLDEN : Nat := 11400714819323198485

/-- uhash.rs `MIXING_CONSTANT = 0x517cc1b727220a95`. -/
def MIXCONST : Nat := 5871781006564002453

/-- Rotation `u64::rotate_left` for `x < 2 ^ 64`. -/
def rotl64 (x n : Nat) : Nat := x * 2 ^ n % 2 ^ 64 ||| x / 2 ^ (64 - n)

/-- uhash.rs `compute_address`: mix the two low `u64`s of the chain state
with the round index, mask to a block index, scale to a byte address. -/
def compute_address (st r : Nat) : Nat :=
  ((st % 2 ^ 64 ^^^ st / 2 ^ 64 % 2 ^ 64 ^^^ rotl64 r 13 ^^^ r * MIXCONST % 2 ^ 64)
    &&& 8191) * 64

/-- The 64-byte scratchpad block at byte address `addr`. -/
def readBlock (sp addr : Nat) : Nat := sp / 256 ^ addr % 2 ^ 512

/-- Write the 32 bytes of `v` into the scratchpad at byte address `addr`
(the `copy_nonoverlapping` of 32 bytes in `round_step_spec_compliant`). -/
def writeState (sp addr v : Nat) : Nat :=
  sp % 256 ^ addr + v % 2 ^ 256 * 256 ^ addr +
    sp / 256 ^ (addr + 32) * 256 ^ (addr + 32)

/-- uhash.rs `round_step_spec_compliant`: read the block at the mixed
address, pick the primitive `(initial + round + 1) % 3` (0 AES, 1 SHA-256,
otherwise BLAKE3), write the new state back to the same address. -/
def round_step (sp st ip r : Nat) : Nat × Nat :=
  let addr := compute_address st r
  let block := readBlock sp addr
  let prim := (ip + r + 1) % 3
  let st2 :=
    if prim = 0 then aes_compress st block
    else if prim = 1 then sha256_compress st block
    else blake3_compress st block
  (writeState sp addr st2, st2)

/-- Run `n` consecutive round steps starting at round index `r`. -/
def roundsLoop (ip : Nat) : Nat → Nat → Nat → Nat → Nat × Nat
  | 0, _, sp, st => (sp, st)
  | n + 1, r, sp, st =>
    let p := round_step sp st ip r
    roundsLoop ip n (r + 1) p.1 p.2

/-- The successive 64-byte blocks written by uhash.rs `fill_scratchpad_aes`:
each iteration advances the state by one `aes_expand_block`, writes
`state || state2 || state || state2` and carries `state` (not `state2`). -/
def fillBlocks (key st : Nat) : Nat → List Nat
  | 0 => []
  | n + 1 =>
    let s1 := aes4 st key
    let s2 := aes4 s1 key
    (s1 + s2 * 2 ^ 128 + s1 * 2 ^ 256 + s2 * 2 ^ 384) :: fillBlocks key s1 n

/-- Pack consecutive 64-byte blocks into one scratchpad `Nat`. -/
def packBlocks : List Nat → Nat
  | [] => 0
  | b :: r => b + packBlocks r * 2 ^ 512

/-- The main loop of uhash.rs `fill_scratchpad_aes`: block `i` is written at
byte offset `i * 64` of the accumulated scratchpad; the state carried to the
next iteration is `s1`, the value after the first expansion. -/
def fillLoop (key : Nat) : Nat → Nat → Nat → Nat → Nat
  | 0, _, _, acc => acc
  | n + 1, i, st, acc =>
    let s1 := aes4 st key
    let s2 := aes4 s1 key
    fillLoop key n (i + 1) s1
      (acc + (s1 + s2 * 2 ^ 128 + s1 * 2 ^ 256 + s2 * 2 ^ 384) * 256 ^ (64 * i))

/-- uhash.rs `fill_scratchpad_aes`: key is `seed[0..16]`, the running state
starts at `seed[16..32]`, 8192 blocks are produced. -/
def fill_scratchpad (seed : Nat) : Nat :=
  fillLoop (seed % 2 ^ 128) 8192 0 (seed / 2 ^ 128 % 2 ^ 128) 0

/-- uhash.rs `extract_nonce`: the last 8 input bytes as a little-endian
`u64`, or for short inputs the first 8 bytes of the input's BLAKE3 hash. -/
def extract_nonce (I : List Nat) : Nat :=
  if 8 ≤ I.length then packLE (I.drop (I.length - 8))
  else blake3Hash I % 2 ^ 64

/-- The input header: everything except the last 8 bytes
(`input[..input.len().saturating_sub(8)]`). -/
def headerOf (I : List Nat) : List Nat := I.take (I.length - 8)

/-- Per-chain seed (uhash.rs `init_scratchpads`):
`BLAKE3(header || (nonce ^ (c * GOLDEN_RATIO)).to_le_bytes())`. -/
def chainSeed (I : List Nat) (c : Nat) : Nat :=
  blake3Hash (headerOf I ++ le64Bytes (extract_nonce I ^^^ c * GOLDEN % 2 ^ 64))

/-- Scratchpad and state of chain `c` after its first `n` rounds: the chain
starts from the seed-filled scratchpad and seed state with initial primitive
`((nonce as usize) + chain) % 3` (uhash.rs `execute_rounds`), the `usize`
addition wrapping modulo `2 ^ 64`. -/
def chainStep (I : List Nat) (c n : Nat) : Nat × Nat :=
  roundsLoop ((extract_nonce I + c) % 2 ^ 64 % 3) n 0
    (fill_scratchpad (chainSeed I c)) (chainSeed I c)

/-- uhash.rs `finalize`: XOR the chain states, then SHA-256, then BLAKE3. -/
def finalizeHash (combined : Nat) : Nat :=
  blake3Hash (bytes32 (sha256_digest32 combined))

/-- The method `UniversalHash::hash` along the sequential (`not(feature = "parallel")`)
path: chains run one after the other, 12288 rounds each. -/
def uhash (I : List Nat) : Nat :=
  finalizeHash ((chainStep I 0 12288).2 ^^^ (chainStep I 1 12288).2 ^^^
    (chainStep I 2 12288).2 ^^^ (chainStep I 3 12288).2)

/-! The parallel (`feature = "parallel"`) path: `init_scratchpads` first
derives all four chain seeds, then fills the four scratchpads independently;
`execute_rounds` runs the four chains independently. -/

/-- Parallel `init_scratchpads`, phase 1: the four chain seeds. -/
def chainSeedsPar (I : List Nat) : List Nat := (List.range 4).map (chainSeed I)

/-- Parallel `init_scratchpads`, phase 2: fill each scratchpad from its seed. -/
def scratchpadsPar (I : List Nat) : List Nat :=
  (chainSeedsPar I).map fill_scratchpad

/-- One chain of the parallel `execute_rounds`: the same wrapping `usize`
initial-primitive computation as the sequential path. -/
def runChainPar (I : List Nat) (c sp st : Nat) : Nat × Nat :=
  roundsLoop ((extract_nonce I + c) % 2 ^ 64 % 3) 12288 0 sp st

/-- XOR of the four chain states after the parallel chain runs
(the `finalize` combination step). -/
def xor4 : List (Nat × Nat) → Nat
  | [a, b, c, d] => a.2 ^^^ b.2 ^^^ c.2 ^^^ d.2
  | _ => 0

/-- The method `UniversalHash::hash` along the parallel path: the scratchpads are
zipped with the chain states and enumerated (rayon's
`par_iter_mut().zip().enumerate()`), each chain runs independently. -/
def uhashPar (I : List Nat) : Nat :=
  finalizeHash (xor4 (List.zipWith (fun c p => runChainPar I c (Prod.fst p) (Prod.snd p))
    (List.range 4) (List.zip (scratchpadsPar I) (chainSeedsPar I))))

/-- The primitive table of the spec: index 0 is the AES compression,
index 1 the SHA-256 compression, index 2 the BLAKE3 compression. -/
def primAt (i st blk : Nat) : Nat :=
  if i = 0 then aes_compress st blk
  else if i = 1 then sha256_compress st blk
  else blake3_compress st blk

/-- The running state of the scratchpad filler: `aes4Iter key st i` is the
state after `i` applications of `aes_expand_block` to `seed[16..32]`, so the
state written first into block `i` is `aes4Iter key st (i + 1)` — each
iteration carries the post-first-expansion state. -/
def aes4Iter (key st : Nat) : Nat → Nat
  | 0 => st
  | i + 1 => aes4 (aes4Iter key st i) key

/-! The difficulty predicate (uhash.rs `meets_difficulty`). -/

/-- The count `u8::leading_zeros`. -/
def u8clz (b : Nat) : Nat :=
  if 128 ≤ b then 0 else if 64 ≤ b then 1 else if 32 ≤ b then 2
  else if 16 ≤ b then 3 else if 8 ≤ b then 4 else if 4 ≤ b then 5
  else if 2 ≤ b then 6 else if 1 ≤ b then 7 else 8

/-- The `zero_bits` accumulation of `meets_difficulty`: 8 per leading zero
byte, then the leading zeros of the first non-zero byte. -/
def leadZeroBits : List Nat → Nat
  | [] => 0
  | b :: r => if b = 0 then 8 + leadZeroBits r else u8clz b

/-- uhash.rs `meets_difficulty`: at least `d` leading zero bits. -/
def meets_difficulty (h : List Nat) (d : Nat) : Bool := d ≤ leadZeroBits h
/-- The 94-byte mining input of the known-answer vector: the 32-byte seed,
the 46 ASCII bytes of the bostrom address, the little-endian u64 timestamp
1770986039 and the little-endian u64 nonce 9223372036854775893. -/
def c1Input : List Nat :=
  [110, 187, 78, 218, 85, 154, 99, 27, 49, 236, 45, 93, 179, 166, 253, 219, 8, 237, 229, 132, 98, 201, 23, 213, 191, 246, 240, 218, 40, 76, 26, 252, 98, 111, 115, 116, 114, 111, 109, 49, 115, 55, 102, 117, 121, 52, 51, 104, 56, 118, 54, 104, 122, 106, 116, 117, 108, 120, 57, 103, 120, 121, 112, 51, 48, 114, 108, 57, 116, 53, 99, 122, 51, 122, 53, 54, 109, 107, 55, 26, 143, 105, 0, 0, 0, 0, 85, 0, 0, 0, 0, 0, 0, 128]

/-- The expected 32-byte output of the known-answer vector, packed LE
(hex 00b37e351ab7b7616e415fd350adb55fea92fb8027f9e9695387b37392bafab5). -/
def c1Expected : Nat := 82311625032923296157881992391676745597113949154520613027257163882871327208192
/-! Helper lemmas. -/

theorem pack8_getByte (n : Nat) :
    packLE [getByte n 0, getByte n 1, getByte n 2, getByte n 3, getByte n 4,
      getByte n 5, getByte n 6, getByte n 7] = n % 2 ^ 64 := by
  simp only [packLE, getByte]
  norm_num
  omega

theorem extract_nonce_short {I : List Nat} (h : I.length < 8) :
    extract_nonce I = blake3Hash I % 2 ^ 64 := by
  unfold extract_nonce
  rw [if_neg (by omega)]

theorem headerOf_short {I : List Nat} (h : I.length < 8) : headerOf I = [] := by
  unfold headerOf
  rw [Nat.sub_eq_zero_of_le (by omega), List.take_zero]

/-! Claim theorems. -/

/-- C7: the mixed address equals the spec formula, is a multiple of 64, and
keeps every 64-byte block read and 32-byte write-back inside the 524288-byte
scratchpad. -/
theorem c7_address_bounds (st r : Nat) :
    compute_address st r =
      ((st % 2 ^ 64 ^^^ st / 2 ^ 64 % 2 ^ 64 ^^^ rotl64 r 13 ^^^ r * MIXCONST % 2 ^ 64)
        &&& 8191) * 64 ∧
    compute_address st r % 64 = 0 ∧
    compute_address st r ≤ 524224 ∧
    compute_address st r + 32 ≤ 524288 ∧
    compute_address st r + 64 ≤ 524288 := by
  have hm : (st % 2 ^ 64 ^^^ st / 2 ^ 64 % 2 ^ 64 ^^^ rotl64 r 13 ^^^ r * MIXCONST % 2 ^ 64)
      &&& 8191 ≤ 8191 := Nat.and_le_right
  refine ⟨rfl, Nat.mul_mod_left _ _, ?_, ?_, ?_⟩ <;>
    · unfold compute_address
      omega

/-- C2: the effective nonce is the little-endian u64 of the last 8 input
bytes when the input has at least 8 bytes, and otherwise the little-endian
u64 of the first 8 bytes of the input's full BLAKE3 hash. -/
theorem c2_nonce_extraction (I : List Nat) :
    (8 ≤ I.length → extract_nonce I = packLE (I.drop (I.length - 8))) ∧
    (I.length < 8 →
      extract_nonce I =
        packLE [getByte (blake3Hash I) 0, getByte (blake3Hash I) 1,
          getByte (blake3Hash I) 2, getByte (blake3Hash I) 3,
          getByte (blake3Hash I) 4, getByte (blake3Hash I) 5,
          getByte (blake3Hash I) 6, getByte (blake3Hash I) 7]) := by
  constructor
  · intro h
    unfold extract_nonce
    rw [if_pos h]
  · intro h
    rw [extract_nonce_short h, pack8_getByte]

/-- C2 witness at a 9-byte and a 1-byte input. -/
theorem c2_nonce_extraction_witness :
    (8 ≤ ([1, 2, 3, 4, 5, 6, 7, 8, 9] : List Nat).length ∧
      extract_nonce [1, 2, 3, 4, 5, 6, 7, 8, 9] =
        packLE (([1, 2, 3, 4, 5, 6, 7, 8, 9] : List Nat).drop
          (([1, 2, 3, 4, 5, 6, 7, 8, 9] : List Nat).length - 8))) ∧
    (([5] : List Nat).length < 8 ∧
      extract_nonce [5] =
        packLE [getByte (blake3Hash [5]) 0, getByte (blake3Hash [5]) 1,
          getByte (blake3Hash [5]) 2, getByte (blake3Hash [5]) 3,
          getByte (blake3Hash [5]) 4, getByte (blake3Hash [5]) 5,
          getByte (blake3Hash [5]) 6, getByte (blake3Hash [5]) 7]) :=
  ⟨⟨by decide, (c2_nonce_extraction [1, 2, 3, 4, 5, 6, 7, 8, 9]).1 (by decide)⟩,
   ⟨by decide, (c2_nonce_extraction [5]).2 (by decide)⟩⟩

/-- C3: the per-chain seed is the full BLAKE3 hash of the header followed by
the little-endian bytes of `nonce ^^^ c * GOLDEN_RATIO` (wrapping), the
header is the input without its trailing 8 bytes (empty for short inputs),
and before any round chain `c` starts from exactly that seed as state with
its scratchpad filled from that seed. -/
theorem c3_seed_derivation (I : List Nat) (c : Nat) (_hc : c < 4) :
    chainSeed I c =
      blake3Hash (headerOf I ++ le64Bytes (extract_nonce I ^^^ c * GOLDEN % 2 ^ 64)) ∧
    headerOf I = I.take (I.length - 8) ∧
    (I.length < 8 → headerOf I = []) ∧
    chainStep I c 0 = (fill_scratchpad (chainSeed I c), chainSeed I c) := by
  exact ⟨rfl, rfl, fun h => headerOf_short h, rfl⟩

/-- C3 witness at chain 0 of the empty input. -/
theorem c3_seed_derivation_witness :
    (0 : Nat) < 4 ∧
    chainSeed [] 0 =
      blake3Hash (headerOf [] ++ le64Bytes (extract_nonce [] ^^^ 0 * GOLDEN % 2 ^ 64)) ∧
    headerOf [] = ([] : List Nat).take (([] : List Nat).length - 8) ∧
    (([] : List Nat).length < 8 → headerOf [] = []) ∧
    chainStep [] 0 0 = (fill_scratchpad (chainSeed [] 0), chainSeed [] 0) :=
  ⟨by decide, c3_seed_derivation [] 0 (by decide)⟩

/-- C9: the parallel and the sequential chain-execution paths compute the
same hash on every input. -/
theorem c9_parallel_sequential (I : List Nat) : uhashPar I = uhash I := by
  have hsp : scratchpadsPar I =
      [fill_scratchpad (chainSeed I 0), fill_scratchpad (chainSeed I 1),
        fill_scratchpad (chainSeed I 2), fill_scratchpad (chainSeed I 3)] := by
    unfold scratchpadsPar chainSeedsPar
    rw [show List.range 4 = [0, 1, 2, 3] from rfl]
    simp only [List.map_cons, List.map_nil]
  have hst : chainSeedsPar I =
      [chainSeed I 0, chainSeed I 1, chainSeed I 2, chainSeed I 3] := by
    unfold chainSeedsPar
    rw [show List.range 4 = [0, 1, 2, 3] from rfl]
    simp only [List.map_cons, List.map_nil]
  have hchain : ∀ c, runChainPar I c (fill_scratchpad (chainSeed I c)) (chainSeed I c) =
      chainStep I c 12288 := fun c => rfl
  unfold uhashPar
  rw [hsp, hst, show List.range 4 = [0, 1, 2, 3] from rfl]
  simp only [List.zip_cons_cons, List.zip_nil_right, List.zipWith_cons_cons,
    List.zipWith_nil_right, List.zipWith_nil_left, xor4]
  rw [hchain 0, hchain 1, hchain 2, hchain 3]
  rfl

/-- C8: difficulty 0 always holds, the predicate is monotone non-increasing
in the required bits, and on a hash of `k` zero bytes followed by a non-zero
byte `b` it holds exactly up to `8 * k + leading_zeros b` bits. -/
theorem c8_difficulty (h : List Nat) (d e k b : Nat) (rest : List Nat) :
    meets_difficulty h 0 = true ∧
    (e ≤ d → meets_difficulty h d = true → meets_difficulty h e = true) ∧
    (b ≠ 0 →
      (meets_difficulty (List.replicate k 0 ++ b :: rest) d = true ↔
        d ≤ 8 * k + u8clz b)) := by
  have hrep : ∀ m, leadZeroBits (List.replicate m 0 ++ b :: rest) =
      8 * m + (if b = 0 then 8 + leadZeroBits rest else u8clz b) := by
    intro m
    induction m with
    | zero => simp [leadZeroBits]
    | succ m ih =>
      rw [List.replicate_succ, List.cons_append, leadZeroBits, if_pos rfl, ih]
      omega
  refine ⟨by simp [meets_difficulty], ?_, ?_⟩
  · intro hed hd
    simp only [meets_difficulty, decide_eq_true_eq] at hd ⊢
    omega
  · intro hb
    simp only [meets_difficulty, decide_eq_true_eq, hrep k, if_neg hb]

/-- C8 witness on the hash `0x00 0x0f ...`: difficulty 0 and monotonicity
from 12 down to 5 bits, and the exact threshold for one zero byte followed
by `0x0f`. -/
theorem c8_difficulty_witness :
    meets_difficulty [0, 15, 255] 0 = true ∧
    ((5 : Nat) ≤ 12 ∧ meets_difficulty [0, 15, 255] 12 = true ∧
      meets_difficulty [0, 15, 255] 5 = true) ∧
    ((15 : Nat) ≠ 0 ∧
      (meets_difficulty (List.replicate 1 0 ++ 15 :: [255]) 12 = true ↔
        (12 : Nat) ≤ 8 * 1 + u8clz 15)) :=
  ⟨(c8_difficulty [0, 15, 255] 12 5 1 15 [255]).1,
   ⟨by decide, by decide,
    (c8_difficulty [0, 15, 255] 12 5 1 15 [255]).2.1 (by decide) (by decide)⟩,
   ⟨by decide, (c8_difficulty [0, 15, 255] 12 5 1 15 [255]).2.2 (by decide)⟩⟩

/-- C10: two inputs shorter than 8 bytes whose BLAKE3 hashes agree on their
first 8 bytes hash to the same UniversalHash output: short inputs only reach
the output through the BLAKE3-derived effective nonce, the header being
empty. -/
theorem c10_short_input_collision (I J : List Nat) (hI : I.length < 8)
    (hJ : J.length < 8)
    (h : packLE [getByte (blake3Hash I) 0, getByte (blake3Hash I) 1,
        getByte (blake3Hash I) 2, getByte (blake3Hash I) 3,
        getByte (blake3Hash I) 4, getByte (blake3Hash I) 5,
        getByte (blake3Hash I) 6, getByte (blake3Hash I) 7] =
      packLE [getByte (blake3Hash J) 0, getByte (blake3Hash J) 1,
        getByte (blake3Hash J) 2, getByte (blake3Hash J) 3,
        getByte (blake3Hash J) 4, getByte (blake3Hash J) 5,
        getByte (blake3Hash J) 6, getByte (blake3Hash J) 7]) :
    uhash I = uhash J := by
  rw [pack8_getByte, pack8_getByte] at h
  have hn : extract_nonce I = extract_nonce J := by
    rw [extract_nonce_short hI, extract_nonce_short hJ, h]
  have hs : ∀ c, chainSeed I c = chainSeed J c := by
    intro c
    unfold chainSeed
    rw [hn, headerOf_short hI, headerOf_short hJ]
  have hstep : ∀ c n, chainStep I c n = chainStep J c n := by
    intro c n
    unfold chainStep
    rw [hs, hn]
  unfold uhash
  rw [hstep 0, hstep 1, hstep 2, hstep 3]

/-- C10 witness at the empty input taken twice. -/
theorem c10_short_input_collision_witness :
    List.length ([] : List Nat) < 8 ∧ uhash [] = uhash [] :=
  ⟨by decide, c10_short_input_collision [] [] (by decide) (by decide) rfl⟩
/-! Round-loop peeling and the C5 primitive-rotation claim. -/

theorem roundsLoop_peel (ip n : Nat) : ∀ (r sp st : Nat),
    roundsLoop ip (n + 1) r sp st =
      round_step (roundsLoop ip n r sp st).1 (roundsLoop ip n r sp st).2 ip (r + n) := by
  induction n with
  | zero =>
    intro r sp st
    simp only [roundsLoop, Nat.add_zero]
  | succ n ih =>
    intro r sp st
    have hl : roundsLoop ip (n + 1 + 1) r sp st =
        roundsLoop ip (n + 1) (r + 1) (round_step sp st ip r).1 (round_step sp st ip r).2 :=
      rfl
    have hr : roundsLoop ip (n + 1) r sp st =
        roundsLoop ip n (r + 1) (round_step sp st ip r).1 (round_step sp st ip r).2 :=
      rfl
    rw [hl, ih, hr, show r + 1 + n = r + (n + 1) from by omega]

/-- C5, refuted as stated: the claimed primitive index
`((N + c) % 3 + r + 1) % 3` uses an unbounded addition, but the source
computes `((nonce as usize) + chain) % 3` with a `usize` addition that
wraps modulo `2 ^ 64`, and `2 ^ 64 % 3 = 1`.  At the reachable input whose
last 8 bytes are all `0xFF` (effective nonce `2 ^ 64 - 1`), chain 1,
round 0, the wrapped schedule and the claimed schedule pick different
indices, and the table entries at those indices are genuinely different
primitives. -/
theorem c5_primitive_rotation_counterexample :
    ((extract_nonce [255, 255, 255, 255, 255, 255, 255, 255] + 1) % 2 ^ 64 % 3 + 0 + 1) % 3 ≠
      ((extract_nonce [255, 255, 255, 255, 255, 255, 255, 255] + 1) % 3 + 0 + 1) % 3 ∧
    primAt (((extract_nonce [255, 255, 255, 255, 255, 255, 255, 255] + 1) % 2 ^ 64 % 3 + 0 + 1) % 3) 0 0 ≠
      primAt (((extract_nonce [255, 255, 255, 255, 255, 255, 255, 255] + 1) % 3 + 0 + 1) % 3) 0 0 := by
  constructor
  · decide
  · decide

/-- C5, amended: round `r` of chain `c` applies the primitive with index
`((N + c) % 2 ^ 64 % 3 + r + 1) % 3` — the initial primitive's `usize`
addition wraps modulo `2 ^ 64` as in the source — from the table AES /
SHA-256 / BLAKE3, to the current state and the 64-byte block read at the
mixed address, and the chain state advances by exactly one `round_step`.
For `N + c < 2 ^ 64` this index agrees with the originally claimed
`((N + c) % 3 + r + 1) % 3`. -/
theorem c5_primitive_rotation (I : List Nat) (c r : Nat) (_hc : c < 4)
    (_hr : r < 12288) :
    chainStep I c (r + 1) =
      round_step (chainStep I c r).1 (chainStep I c r).2
        ((extract_nonce I + c) % 2 ^ 64 % 3) r ∧
    (chainStep I c (r + 1)).2 =
      primAt (((extract_nonce I + c) % 2 ^ 64 % 3 + r + 1) % 3) (chainStep I c r).2
        (readBlock (chainStep I c r).1 (compute_address (chainStep I c r).2 r)) := by
  have h1 : chainStep I c (r + 1) =
      round_step (chainStep I c r).1 (chainStep I c r).2
        ((extract_nonce I + c) % 2 ^ 64 % 3) r := by
    unfold chainStep
    rw [roundsLoop_peel, Nat.zero_add]
  exact ⟨h1, by rw [h1]; rfl⟩

/-- C5 witness at the empty input, chain 0, round 0. -/
theorem c5_primitive_rotation_witness :
    (0 : Nat) < 4 ∧ (0 : Nat) < 12288 ∧
    (chainStep [] 0 (0 + 1) =
      round_step (chainStep [] 0 0).1 (chainStep [] 0 0).2
        ((extract_nonce [] + 0) % 2 ^ 64 % 3) 0 ∧
    (chainStep [] 0 (0 + 1)).2 =
      primAt (((extract_nonce [] + 0) % 2 ^ 64 % 3 + 0 + 1) % 3) (chainStep [] 0 0).2
        (readBlock (chainStep [] 0 0).1 (compute_address (chainStep [] 0 0).2 0))) :=
  ⟨by decide, by decide, c5_primitive_rotation [] 0 0 (by decide) (by decide)⟩

/-! Byte-level frame lemmas for the scratchpad write, and the C6 claim. -/

theorem add_mul_lt {x y A B : Nat} (hx : x < A) (hy : y < B) : x + y * A < A * B := by
  calc x + y * A < (y + 1) * A := by
        have : (y + 1) * A = y * A + A := by ring
        omega
    _ ≤ B * A := Nat.mul_le_mul_right A hy
    _ = A * B := Nat.mul_comm B A

theorem getByte_add_mul_pow (x q j a : Nat) (hj : j < a) :
    getByte (x + 256 ^ a * q) j = getByte x j := by
  unfold getByte
  have key : (256 : Nat) ^ a = 256 ^ j * (256 * 256 ^ (a - j - 1)) := by
    calc (256 : Nat) ^ a = 256 ^ (j + (1 + (a - j - 1))) := by congr 1; omega
      _ = 256 ^ j * 256 ^ (1 + (a - j - 1)) := pow_add 256 j (1 + (a - j - 1))
      _ = 256 ^ j * (256 * 256 ^ (a - j - 1)) := by rw [pow_add, pow_one]
  rw [key, show 256 ^ j * (256 * 256 ^ (a - j - 1)) * q =
      256 ^ j * (256 * (256 ^ (a - j - 1) * q)) from by ring,
    Nat.add_mul_div_left _ _ (Nat.pos_pow_of_pos j (by norm_num)),
    Nat.add_mul_mod_self_left]

theorem getByte_mod_pow (x j a : Nat) (hj : j < a) :
    getByte (x % 256 ^ a) j = getByte x j := by
  conv_rhs => rw [← Nat.mod_add_div x (256 ^ a)]
  rw [getByte_add_mul_pow _ _ _ _ hj]

theorem getByte_writeState_low (sp a v j : Nat) (hj : j < a) :
    getByte (writeState sp a v) j = getByte sp j := by
  unfold writeState
  rw [show sp % 256 ^ a + v % 2 ^ 256 * 256 ^ a +
        sp / 256 ^ (a + 32) * 256 ^ (a + 32) =
      sp % 256 ^ a + 256 ^ a * (v % 2 ^ 256 + 256 ^ 32 * (sp / 256 ^ (a + 32))) from by
    rw [pow_add]; ring]
  rw [getByte_add_mul_pow _ _ _ _ hj, getByte_mod_pow _ _ _ hj]

theorem getByte_writeState_high (sp a v j : Nat) (hj : a + 32 ≤ j) :
    getByte (writeState sp a v) j = getByte sp j := by
  have hlow : sp % 256 ^ a + v % 2 ^ 256 * 256 ^ a < 256 ^ (a + 32) := by
    have h1 : sp % 256 ^ a < 256 ^ a :=
      Nat.mod_lt _ (Nat.pos_pow_of_pos a (by norm_num))
    have h2 : v % 2 ^ 256 < 2 ^ 256 := Nat.mod_lt _ (by positivity)
    have h3 := add_mul_lt h1 h2
    calc sp % 256 ^ a + v % 2 ^ 256 * 256 ^ a < 256 ^ a * 2 ^ 256 := h3
      _ = 256 ^ (a + 32) := by
        rw [pow_add]
        norm_num
  have hW : writeState sp a v =
      sp % 256 ^ a + v % 2 ^ 256 * 256 ^ a + 256 ^ (a + 32) * (sp / 256 ^ (a + 32)) := by
    unfold writeState
    ring
  unfold getByte
  rw [hW, show j = a + 32 + (j - (a + 32)) from by omega, pow_add 256 (a + 32),
    ← Nat.div_div_eq_div_mul, ← Nat.div_div_eq_div_mul,
    Nat.add_mul_div_left _ _ (Nat.pos_pow_of_pos (a + 32) (by norm_num)),
    Nat.div_eq_of_lt hlow, Nat.zero_add]

/-- C6: one round step changes only the 32 scratchpad bytes at the address
computed from the pre-round state; the upper half of the 64-byte block that
was read, and every byte outside that block, keep their previous value. -/
theorem c6_round_frame (sp st ip r j : Nat)
    (hj : j < compute_address st r ∨ compute_address st r + 32 ≤ j) :
    getByte (round_step sp st ip r).1 j = getByte sp j := by
  have h1 : (round_step sp st ip r).1 =
      writeState sp (compute_address st r) (round_step sp st ip r).2 := rfl
  rw [h1]
  rcases hj with hj | hj
  · exact getByte_writeState_low _ _ _ _ hj
  · exact getByte_writeState_high _ _ _ _ hj

/-- C6 witness: the byte just past the written half-block is preserved. -/
theorem c6_round_frame_witness :
    ((32 : Nat) < compute_address 0 0 ∨ compute_address 0 0 + 32 ≤ 32) ∧
    getByte (round_step 0 0 0 0).1 32 = getByte 0 32 :=
  ⟨by decide, c6_round_frame 0 0 0 0 32 (by decide)⟩
/-! Bounds for the AES primitives and the scratchpad filler, and the C4
block-structure claim. -/

theorem cat_lt {lo hi : Nat} {w v : Nat} (hlo : lo < 2 ^ w) (hhi : hi < 2 ^ v) :
    cat lo w hi < 2 ^ (w + v) := by
  unfold cat
  rw [pow_add]
  exact add_mul_lt hlo hhi

theorem sboxAt_lt (b : Nat) : sboxAt b < 256 := Nat.mod_lt _ (by norm_num)

theorem xor8_lt {a b : Nat} (ha : a < 256) (hb : b < 256) : a ^^^ b < 256 :=
  Nat.xor_lt_two_pow (n := 8) ha hb

theorem gf2_lt {x : Nat} (hx : x < 256) : gf2 x < 256 := by
  unfold gf2
  have h1 : x * 2 &&& 255 < 256 := lt_of_le_of_lt Nat.and_le_right (by norm_num)
  have h2 : x / 128 * 27 < 256 := by omega
  exact Nat.xor_lt_two_pow (n := 8) h1 h2

theorem gf3_lt {x : Nat} (hx : x < 256) : gf3 x < 256 :=
  xor8_lt (gf2_lt hx) hx

theorem mixCol_lt {a0 a1 a2 a3 : Nat} (h0 : a0 < 256) (h1 : a1 < 256)
    (h2 : a2 < 256) (h3 : a3 < 256) : mixCol a0 a1 a2 a3 < 2 ^ 32 := by
  unfold mixCol
  have b0 : gf2 a0 ^^^ gf3 a1 ^^^ a2 ^^^ a3 < 256 :=
    xor8_lt (xor8_lt (xor8_lt (gf2_lt h0) (gf3_lt h1)) h2) h3
  have b1 : a0 ^^^ gf2 a1 ^^^ gf3 a2 ^^^ a3 < 256 :=
    xor8_lt (xor8_lt (xor8_lt h0 (gf2_lt h1)) (gf3_lt h2)) h3
  have b2 : a0 ^^^ a1 ^^^ gf2 a2 ^^^ gf3 a3 < 256 :=
    xor8_lt (xor8_lt (xor8_lt h0 h1) (gf2_lt h2)) (gf3_lt h3)
  have b3 : gf3 a0 ^^^ a1 ^^^ a2 ^^^ gf2 a3 < 256 :=
    xor8_lt (xor8_lt (xor8_lt (gf3_lt h0) h1) h2) (gf2_lt h3)
  exact cat_lt (w := 8) (v := 24) b0 (cat_lt (w := 8) (v := 16) b1
    (cat_lt (w := 8) (v := 8) b2 b3))

theorem aesenc_lt {s k : Nat} (hk : k < 2 ^ 128) : aesenc s k < 2 ^ 128 := by
  simp only [aesenc]
  have hb : ∀ x : Nat, sboxAt x < 256 := sboxAt_lt
  refine Nat.xor_lt_two_pow (n := 128) ?_ hk
  exact cat_lt (w := 32) (v := 96)
    (mixCol_lt (hb _) (hb _) (hb _) (hb _))
    (cat_lt (w := 32) (v := 64) (mixCol_lt (hb _) (hb _) (hb _) (hb _))
      (cat_lt (w := 32) (v := 32) (mixCol_lt (hb _) (hb _) (hb _) (hb _))
        (mixCol_lt (hb _) (hb _) (hb _) (hb _))))

theorem aes4_lt {st k : Nat} (hk : k < 2 ^ 128) : aes4 st k < 2 ^ 128 := by
  unfold aes4
  exact aesenc_lt hk

theorem aes4Iter_shift (key st : Nat) : ∀ i,
    aes4Iter key (aes4 st key) i = aes4Iter key st (i + 1) := by
  intro i
  induction i with
  | zero => rfl
  | succ i ih => simp only [aes4Iter, ih]

theorem fillBlocks_length (key : Nat) : ∀ (n st : Nat),
    (fillBlocks key st n).length = n := by
  intro n
  induction n with
  | zero => intro st; rfl
  | succ n ih => intro st; simp only [fillBlocks, List.length_cons, ih]

theorem fillBlocks_mem_lt {key : Nat} (hk : key < 2 ^ 128) : ∀ (n st : Nat),
    ∀ b ∈ fillBlocks key st n, b < 2 ^ 512 := by
  intro n
  induction n with
  | zero => intro st b hb; simp [fillBlocks] at hb
  | succ n ih =>
    intro st b hb
    simp only [fillBlocks, List.mem_cons] at hb
    rcases hb with hb | hb
    · subst hb
      have h1 : aes4 st key < 2 ^ 128 := aes4_lt hk
      have h2 : aes4 (aes4 st key) key < 2 ^ 128 := aes4_lt hk
      have q2 : (2 : Nat) ^ 256 = 2 ^ 128 * 2 ^ 128 := by rw [← pow_add]
      have q3 : (2 : Nat) ^ 384 = 2 ^ 128 * (2 ^ 128 * 2 ^ 128) := by
        rw [← pow_add, ← pow_add]
      calc aes4 st key + aes4 (aes4 st key) key * 2 ^ 128 + aes4 st key * 2 ^ 256 +
          aes4 (aes4 st key) key * 2 ^ 384
          = cat (aes4 st key) 128 (cat (aes4 (aes4 st key) key) 128
              (cat (aes4 st key) 128 (aes4 (aes4 st key) key))) := by
            unfold cat
            rw [q2, q3]
            ring
        _ < 2 ^ (128 + (128 + (128 + 128))) :=
            cat_lt h1 (cat_lt h2 (cat_lt h1 h2))
        _ = 2 ^ 512 := by norm_num
    · exact ih (aes4 st key) b hb

theorem packBlocks_extract (o : Nat) (ho : o ≤ 48) : ∀ (l : List Nat),
    (∀ b ∈ l, b < 2 ^ 512) → ∀ i, i < l.length →
    packBlocks l / 256 ^ (64 * i + o) % 2 ^ 128 = l.getD i 0 / 256 ^ o % 2 ^ 128 := by
  intro l
  induction l with
  | nil => intro _ i hi; simp at hi
  | cons b r ih =>
    intro hmem i hi
    match i with
    | 0 =>
      have hsplit : (2 : Nat) ^ 512 = 256 ^ o * 2 ^ (512 - 8 * o) := by
        rw [show (256 : Nat) = 2 ^ 8 from rfl, ← pow_mul, ← pow_add]
        congr 1
        omega
      simp only [packBlocks, List.getD_cons_zero, Nat.mul_zero, Nat.zero_add]
      rw [show b + packBlocks r * 2 ^ 512 =
          b + 256 ^ o * (2 ^ (512 - 8 * o) * packBlocks r) from by rw [hsplit]; ring,
        Nat.add_mul_div_left _ _ (pow_pos (by norm_num) o),
        show (2 : Nat) ^ (512 - 8 * o) * packBlocks r =
          2 ^ 128 * (2 ^ (384 - 8 * o) * packBlocks r) from by
            rw [← Nat.mul_assoc, ← pow_add]
            congr 2
            omega,
        Nat.add_mul_mod_self_left]
    | i + 1 =>
      have hb : b < 2 ^ 512 := hmem b (List.mem_cons_self b r)
      have hstep : packBlocks (b :: r) / 256 ^ (64 * (i + 1) + o) =
          packBlocks r / 256 ^ (64 * i + o) := by
        simp only [packBlocks]
        rw [show 64 * (i + 1) + o = 64 + (64 * i + o) from by omega, pow_add,
          show (256 : Nat) ^ 64 = 2 ^ 512 from by norm_num,
          ← Nat.div_div_eq_div_mul,
          show b + packBlocks r * 2 ^ 512 = b + 2 ^ 512 * packBlocks r from by ring,
          Nat.add_mul_div_left _ _ (by positivity),
          Nat.div_eq_of_lt hb, Nat.zero_add]
      rw [hstep, List.getD_cons_succ]
      exact ih (fun x hx => hmem x (List.mem_cons_of_mem b hx)) i
        (by simpa using hi)

theorem pack4_fields {A B : Nat} (hA : A < 2 ^ 128) (hB : B < 2 ^ 128) :
    (A + B * 2 ^ 128 + A * 2 ^ 256 + B * 2 ^ 384) % 2 ^ 128 = A ∧
    (A + B * 2 ^ 128 + A * 2 ^ 256 + B * 2 ^ 384) / 256 ^ 16 % 2 ^ 128 = B ∧
    (A + B * 2 ^ 128 + A * 2 ^ 256 + B * 2 ^ 384) / 256 ^ 32 % 2 ^ 128 = A ∧
    (A + B * 2 ^ 128 + A * 2 ^ 256 + B * 2 ^ 384) / 256 ^ 48 % 2 ^ 128 = B := by
  have p1 : (256 : Nat) ^ 16 = 2 ^ 128 := by norm_num
  have p2 : (256 : Nat) ^ 32 = 2 ^ 128 * 2 ^ 128 := by norm_num
  have p3 : (256 : Nat) ^ 48 = 2 ^ 128 * 2 ^ 128 * 2 ^ 128 := by norm_num
  have q2 : (2 : Nat) ^ 256 = 2 ^ 128 * 2 ^ 128 := by rw [← pow_add]
  have q3 : (2 : Nat) ^ 384 = 2 ^ 128 * (2 ^ 128 * 2 ^ 128) := by
    rw [← pow_add, ← pow_add]
  have hE : A + B * 2 ^ 128 + A * 2 ^ 256 + B * 2 ^ 384 =
      A + 2 ^ 128 * (B + 2 ^ 128 * (A + 2 ^ 128 * B)) := by
    rw [q2, q3]
    ring
  have hpos : (0 : Nat) < 2 ^ 128 := by positivity
  refine ⟨?_, ?_, ?_, ?_⟩
  · rw [hE, Nat.add_mul_mod_self_left, Nat.mod_eq_of_lt hA]
  · rw [hE, p1, Nat.add_mul_div_left _ _ hpos, Nat.div_eq_of_lt hA, Nat.zero_add,
      Nat.add_mul_mod_self_left, Nat.mod_eq_of_lt hB]
  · rw [hE, p2, ← Nat.div_div_eq_div_mul, Nat.add_mul_div_left _ _ hpos,
      Nat.div_eq_of_lt hA, Nat.zero_add, Nat.add_mul_div_left _ _ hpos,
      Nat.div_eq_of_lt hB, Nat.zero_add, Nat.add_mul_mod_self_left,
      Nat.mod_eq_of_lt hA]
  · rw [hE, p3, ← Nat.div_div_eq_div_mul, ← Nat.div_div_eq_div_mul,
      Nat.add_mul_div_left _ _ hpos, Nat.div_eq_of_lt hA, Nat.zero_add,
      Nat.add_mul_div_left _ _ hpos, Nat.div_eq_of_lt hB, Nat.zero_add,
      Nat.add_mul_div_left _ _ hpos, Nat.div_eq_of_lt hA, Nat.zero_add,
      Nat.mod_eq_of_lt hB]

theorem fillBlocks_getD (key : Nat) : ∀ (n st i : Nat), i < n →
    (fillBlocks key st n).getD i 0 =
      aes4Iter key st (i + 1) + aes4 (aes4Iter key st (i + 1)) key * 2 ^ 128 +
        aes4Iter key st (i + 1) * 2 ^ 256 +
        aes4 (aes4Iter key st (i + 1)) key * 2 ^ 384 := by
  intro n
  induction n with
  | zero => intro st i h; exact absurd h (Nat.not_lt_zero i)
  | succ n ih =>
    intro st i h
    match i with
    | 0 =>
      simp only [fillBlocks, List.getD_cons_zero]
      rw [show aes4Iter key st 1 = aes4 st key from rfl]
    | i + 1 =>
      have hcons : (fillBlocks key st (n + 1)).getD (i + 1) 0 =
          (fillBlocks key (aes4 st key) n).getD i 0 := by
        simp only [fillBlocks, List.getD_cons_succ]
      rw [hcons, ih (aes4 st key) i (by omega), aes4Iter_shift]

theorem fillLoop_eq (key : Nat) : ∀ (n i st acc : Nat),
    fillLoop key n i st acc = acc + packBlocks (fillBlocks key st n) * 256 ^ (64 * i) := by
  intro n
  induction n with
  | zero => intro i st acc; simp [fillLoop, fillBlocks, packBlocks]
  | succ n ih =>
    intro i st acc
    simp only [fillLoop, fillBlocks, packBlocks]
    rw [ih]
    have hp : (256 : Nat) ^ (64 * (i + 1)) = 256 ^ (64 * i) * 2 ^ 512 := by
      rw [show 64 * (i + 1) = 64 * i + 64 from by omega, pow_add]
      norm_num
    rw [hp]
    ring

/-- C4: block `i` of a filled scratchpad holds the running AES state after
expansion `i + 1` in bytes 0..16, its further expansion in bytes 16..32, and
duplicates of the two in bytes 32..48 and 48..64; the state carried between
blocks is the post-first-expansion value (the `aes4Iter` recurrence), never
the second expansion. -/
theorem c4_fill_structure (seed i : Nat) (hi : i < 8192) :
    fill_scratchpad seed / 256 ^ (64 * i) % 2 ^ 128 =
      aes4Iter (seed % 2 ^ 128) (seed / 2 ^ 128 % 2 ^ 128) (i + 1) ∧
    fill_scratchpad seed / 256 ^ (64 * i + 16) % 2 ^ 128 =
      aes4 (aes4Iter (seed % 2 ^ 128) (seed / 2 ^ 128 % 2 ^ 128) (i + 1)) (seed % 2 ^ 128) ∧
    fill_scratchpad seed / 256 ^ (64 * i + 32) % 2 ^ 128 =
      aes4Iter (seed % 2 ^ 128) (seed / 2 ^ 128 % 2 ^ 128) (i + 1) ∧
    fill_scratchpad seed / 256 ^ (64 * i + 48) % 2 ^ 128 =
      aes4 (aes4Iter (seed % 2 ^ 128) (seed / 2 ^ 128 % 2 ^ 128) (i + 1)) (seed % 2 ^ 128) := by
  have hk : seed % 2 ^ 128 < 2 ^ 128 := Nat.mod_lt _ (by positivity)
  have hfill : fill_scratchpad seed =
      packBlocks (fillBlocks (seed % 2 ^ 128) (seed / 2 ^ 128 % 2 ^ 128) 8192) := by
    unfold fill_scratchpad
    rw [fillLoop_eq]
    simp
  have hlen := fillBlocks_length (seed % 2 ^ 128) 8192 (seed / 2 ^ 128 % 2 ^ 128)
  have hmem := fillBlocks_mem_lt hk 8192 (seed / 2 ^ 128 % 2 ^ 128)
  have hget := fillBlocks_getD (seed % 2 ^ 128) 8192 (seed / 2 ^ 128 % 2 ^ 128) i hi
  have hilen : i < (fillBlocks (seed % 2 ^ 128) (seed / 2 ^ 128 % 2 ^ 128) 8192).length := by
    rw [hlen]
    exact hi
  have hs1 : aes4Iter (seed % 2 ^ 128) (seed / 2 ^ 128 % 2 ^ 128) (i + 1) < 2 ^ 128 := by
    rw [show aes4Iter (seed % 2 ^ 128) (seed / 2 ^ 128 % 2 ^ 128) (i + 1) =
        aes4 (aes4Iter (seed % 2 ^ 128) (seed / 2 ^ 128 % 2 ^ 128) i) (seed % 2 ^ 128) from rfl]
    exact aes4_lt hk
  have hs2 : aes4 (aes4Iter (seed % 2 ^ 128) (seed / 2 ^ 128 % 2 ^ 128) (i + 1))
      (seed % 2 ^ 128) < 2 ^ 128 := aes4_lt hk
  have hflds := pack4_fields hs1 hs2
  have e0 := packBlocks_extract 0 (by norm_num) _ hmem i hilen
  have e16 := packBlocks_extract 16 (by norm_num) _ hmem i hilen
  have e32 := packBlocks_extract 32 (by norm_num) _ hmem i hilen
  have e48 := packBlocks_extract 48 (by norm_num) _ hmem i hilen
  rw [hget] at e0 e16 e32 e48
  simp only [Nat.add_zero, pow_zero, Nat.div_one] at e0
  rw [hfill]
  exact ⟨by rw [e0, hflds.1], by rw [e16, hflds.2.1], by rw [e32, hflds.2.2.1],
    by rw [e48, hflds.2.2.2]⟩

/-- C4 witness at block 0 of the all-zero seed. -/
theorem c4_fill_structure_witness :
    (0 : Nat) < 8192 ∧
    (fill_scratchpad 0 / 256 ^ (64 * 0) % 2 ^ 128 =
      aes4Iter (0 % 2 ^ 128) (0 / 2 ^ 128 % 2 ^ 128) (0 + 1) ∧
    fill_scratchpad 0 / 256 ^ (64 * 0 + 16) % 2 ^ 128 =
      aes4 (aes4Iter (0 % 2 ^ 128) (0 / 2 ^ 128 % 2 ^ 128) (0 + 1)) (0 % 2 ^ 128) ∧
    fill_scratchpad 0 / 256 ^ (64 * 0 + 32) % 2 ^ 128 =
      aes4Iter (0 % 2 ^ 128) (0 / 2 ^ 128 % 2 ^ 128) (0 + 1) ∧
    fill_scratchpad 0 / 256 ^ (64 * 0 + 48) % 2 ^ 128 =
      aes4 (aes4Iter (0 % 2 ^ 128) (0 / 2 ^ 128 % 2 ^ 128) (0 + 1)) (0 % 2 ^ 128)) :=
  ⟨by decide, c4_fill_structure 0 0 (by decide)⟩
